import Mathlib

deriving instance DecidableEq for Except

/-!
# Verification of the wave-billing-gpt-backend request pipeline

This file gives a shallow embedding, in Lean 4, of the shared request
pipeline of the `wave-billing-gpt-backend` repository: the environment
resolver (`src/lib/businessSelector.ts`, `src/lib/wavePaymentConfig.ts`),
the GraphQL transport helper (`waveGraphQLFetch`), validation and date
defaulting of the invoice-creation routes, the invoice listing route, the
product update route, the monthly summary route and the health route.

Modelling conventions:

* `process.env` is modelled as a function `Env := String → Option String`;
  `none` models an unset variable.
* JavaScript numbers appearing in dynamically-typed positions are modelled
  by `JSNum` (NaN, the two infinities, or a finite value).  Finite values
  are modelled as rationals: the claims under verification concern
  comparisons, clamping and exact sums of money amounts, none of which
  depends on binary floating-point rounding.
* A JSON field of unknown runtime type is an `Option JsField` (`none`
  models an absent field, i.e. `undefined`).
* Thrown `Error`s are modelled by `Except String`, carrying the message.
* An HTTP response from the upstream GraphQL endpoint is a record carrying
  the fields the code consults (`ok`, `status`, `statusText`, the raw text
  body and the decoded JSON body).  A body whose JSON decoding itself
  throws is outside this model.
-/

/-- The process environment: variable name to value, `none` when unset. -/
def Env : Type := String → Option String

/-- Builds an environment from an association list (used by witnesses). -/
def envOf (entries : List (String × String)) : Env :=
  fun name => (entries.find? (fun p => p.fst = name)).map (fun p => p.snd)

/-- A JavaScript number: NaN, +Infinity, -Infinity, or a finite value
(modelled as a rational, see the header comment). -/
inductive JSNum where
  | nan : JSNum
  | posInf : JSNum
  | negInf : JSNum
  | fin : ℚ → JSNum
deriving DecidableEq

/-- `Number.isNaN`. -/
def JSNum.isNaN : JSNum → Bool
  | .nan => true
  | _ => false

/-- `Number.isFinite`. -/
def JSNum.isFinite : JSNum → Bool
  | .fin _ => true
  | _ => false

/-- The JavaScript comparison `a <= b` (false whenever one side is NaN). -/
def JSNum.jsLe : JSNum → JSNum → Bool
  | .nan, _ => false
  | _, .nan => false
  | .negInf, _ => true
  | .posInf, .posInf => true
  | .posInf, _ => false
  | .fin _, .posInf => true
  | .fin _, .negInf => false
  | .fin a, .fin b => decide (a ≤ b)

/-- The JavaScript comparison `a < b` (false whenever one side is NaN). -/
def JSNum.jsLt : JSNum → JSNum → Bool
  | .nan, _ => false
  | _, .nan => false
  | .negInf, .negInf => false
  | .negInf, _ => true
  | .posInf, _ => false
  | .fin _, .posInf => true
  | .fin _, .negInf => false
  | .fin a, .fin b => decide (a < b)

/-- `Math.max` on two arguments: NaN-propagating, otherwise the larger. -/
def JSNum.jsMax (a b : JSNum) : JSNum :=
  if a.isNaN || b.isNaN then .nan else if a.jsLe b then b else a

/-- `Math.min` on two arguments: NaN-propagating, otherwise the smaller. -/
def JSNum.jsMin (a b : JSNum) : JSNum :=
  if a.isNaN || b.isNaN then .nan else if a.jsLe b then a else b

/-- A JSON value found in a dynamically-typed request-body field. Objects
and arrays are collapsed into `composite` (the code under verification
only ever asks `typeof`-style questions or truthiness of such fields). -/
inductive JsField where
  | null : JsField
  | bool : Bool → JsField
  | num : JSNum → JsField
  | str : String → JsField
  | composite : JsField
deriving DecidableEq

/-- JavaScript truthiness of a `JsField`. -/
def JsField.truthy : JsField → Bool
  | .null => false
  | .bool b => b
  | .num .nan => false
  | .num (.fin q) => decide (q ≠ 0)
  | .num _ => true
  | .str s => decide (s ≠ "")
  | .composite => true

/-- JavaScript string whitespace for `String.prototype.trim` (restricted
to the ASCII whitespace characters, the ones relevant to header and
identifier fields). -/
def isJsWhitespace (c : Char) : Bool := c = ' ' ∨ c = '\t' ∨ c = '\n' ∨ c = '\r'

/-- `String.prototype.trim`: strip leading and trailing whitespace. -/
def jsTrim (s : String) : String :=
  String.mk (((s.data.dropWhile isJsWhitespace).reverse.dropWhile isJsWhitespace).reverse)

/-- The nullish-coalescing operator `v ?? d` for an optional field. -/
def nullishCoalesce (v : Option JsField) (d : JsField) : JsField :=
  match v with
  | none => d
  | some .null => d
  | some f => f

/-- `readEnv` from `src/lib/businessSelector.ts` / `src/lib/wavePaymentConfig.ts`:
reads a variable and throws `` `${name} is not set` `` when it is absent or
empty (JS truthiness of the value). -/
def readEnv (env : Env) (name : String) : Except String String :=
  match env name with
  | some value => if value = "" then .error (name ++ " is not set") else .ok value
  | none => .error (name ++ " is not set")

/-- `BusinessKey` from `src/lib/businessSelector.ts`. -/
inductive BusinessKey where
  | manna : BusinessKey
  | bako : BusinessKey
  | socialion : BusinessKey
deriving DecidableEq

/-- The string rendering of a `BusinessKey` (its TypeScript literal value). -/
def BusinessKey.toKeyString : BusinessKey → String
  | .manna => "manna"
  | .bako => "bako"
  | .socialion => "socialion"

/-- The `validKeys` list appearing in each route handler. -/
def validKeys : List String := ["manna", "bako", "socialion"]

/-- Recovers the `BusinessKey` denoted by a string, if any. -/
def parseBusinessKey (s : String) : Option BusinessKey :=
  if s = "manna" then some .manna
  else if s = "bako" then some .bako
  else if s = "socialion" then some .socialion
  else none

/-- `getBusinessIdFromKey` from `src/lib/businessSelector.ts`. -/
def getBusinessIdFromKey (env : Env) (key : BusinessKey) : Except String String :=
  match key with
  | .manna => readEnv env "WAVE_BUSINESS_ID_MANNA"
  | .bako => readEnv env "WAVE_BUSINESS_ID_BAKO"
  | .socialion => readEnv env "WAVE_BUSINESS_ID_SOCIALION"

/-- `WavePaymentConfig` from `src/lib/wavePaymentConfig.ts`. -/
structure WavePaymentConfig where
  anchorAccountId : String
  salesAccountId : String
deriving DecidableEq

/-- The body of each `getWavePaymentConfig` case: read the anchor account
entry, then the sales account entry, failing on the first missing one.
The source inlines this pattern once per business key with the key-specific
variable names. -/
def readPaymentPair (env : Env) (anchorName salesName : String) :
    Except String WavePaymentConfig :=
  match readEnv env anchorName with
  | .error e => .error e
  | .ok anchor =>
    match readEnv env salesName with
    | .error e => .error e
    | .ok sales => .ok ⟨anchor, sales⟩

/-- `getWavePaymentConfig` from `src/lib/wavePaymentConfig.ts`.  The anchor
account entry is read first; its failure is reported before the sales
entry is consulted, as in the source. -/
def getWavePaymentConfig (env : Env) (key : BusinessKey) : Except String WavePaymentConfig :=
  match key with
  | .manna => readPaymentPair env "WAVE_ANCHOR_ACCOUNT_ID_MANNA" "WAVE_SALES_ACCOUNT_ID_MANNA"
  | .bako => readPaymentPair env "WAVE_ANCHOR_ACCOUNT_ID_BAKO" "WAVE_SALES_ACCOUNT_ID_BAKO"
  | .socialion =>
    readPaymentPair env "WAVE_ANCHOR_ACCOUNT_ID_SOCIALION" "WAVE_SALES_ACCOUNT_ID_SOCIALION"

/-- One entry of the `errors` list of a GraphQL response body
(`WaveGraphQLResponse` in `src/lib/waveClient.ts`). -/
structure WaveGraphQLError where
  message : String
deriving DecidableEq

/-- The decoded JSON body of a GraphQL response
(`WaveGraphQLResponse<T>` in `src/lib/waveClient.ts`). -/
structure WaveGraphQLResponse (T : Type) where
  data : Option T
  errors : Option (List WaveGraphQLError)

/-- The HTTP response obtained from the upstream endpoint, restricted to
the fields `waveGraphQLFetch` consults. -/
structure UpstreamHttpResponse (T : Type) where
  ok : Bool
  status : Nat
  statusText : String
  bodyText : String
  json : WaveGraphQLResponse T

/-- `waveGraphQLFetch` from `src/lib/waveClient.ts`, as a function of the
environment and of the HTTP response the single POST request obtains.
The returned `Except` models the promise: `.error` is a thrown `Error`
carrying the message. -/
def waveGraphQLFetch {T : Type} (env : Env) (response : UpstreamHttpResponse T) :
    Except String T :=
  match env "WAVE_ACCESS_TOKEN" with
  | none => .error "WAVE_ACCESS_TOKEN is not set"
  | some token =>
    if token = "" then .error "WAVE_ACCESS_TOKEN is not set"
    else if !response.ok then
      .error ("Wave GraphQL request failed: " ++ toString response.status ++ " " ++
        response.statusText ++ " - " ++
        (if response.bodyText = "" then "No response body" else response.bodyText))
    else
      match response.json.errors with
      | some (firstError :: _) => .error ("Wave GraphQL error: " ++ firstError.message)
      | _ =>
        match response.json.data with
        | none => .error "Wave GraphQL response missing data"
        | some payload => .ok payload

/-- C1: for every call to the GraphQL transport made with a configured
access token, the response is classified in the fixed order: non-2xx HTTP
status fails with a transport error carrying the HTTP status, status text
and raw body; a 2xx response with a non-empty `errors` list fails with a
GraphQL error carrying the first error's message; a 2xx response with no
errors but no `data` field fails with the "response missing data" error;
otherwise the `data` payload is returned unchanged. -/
theorem waveGraphQLFetch_classification {T : Type} (env : Env) (token : String)
    (htoken : env "WAVE_ACCESS_TOKEN" = some token) (htoken2 : token ≠ "")
    (response : UpstreamHttpResponse T) :
    (response.ok = false →
      waveGraphQLFetch env response =
        .error ("Wave GraphQL request failed: " ++ toString response.status ++ " " ++
          response.statusText ++ " - " ++
          (if response.bodyText = "" then "No response body" else response.bodyText))) ∧
    (∀ firstError rest, response.ok = true →
      response.json.errors = some (firstError :: rest) →
      waveGraphQLFetch env response =
        .error ("Wave GraphQL error: " ++ firstError.message)) ∧
    (response.ok = true →
      (response.json.errors = none ∨ response.json.errors = some []) →
      response.json.data = none →
      waveGraphQLFetch env response = .error "Wave GraphQL response missing data") ∧
    (∀ payload, response.ok = true →
      (response.json.errors = none ∨ response.json.errors = some []) →
      response.json.data = some payload →
      waveGraphQLFetch env response = .ok payload) := by
  refine ⟨?_, ?_, ?_, ?_⟩
  · intro hok
    simp [waveGraphQLFetch, htoken, htoken2, hok]
  · intro firstError rest hok herr
    simp [waveGraphQLFetch, htoken, htoken2, hok, herr]
  · intro hok herr hdata
    rcases herr with herr | herr <;>
      simp [waveGraphQLFetch, htoken, htoken2, hok, herr, hdata]
  · intro payload hok herr hdata
    rcases herr with herr | herr <;>
      simp [waveGraphQLFetch, htoken, htoken2, hok, herr, hdata]

/-- A concrete environment with a configured access token. -/
def envWithToken : Env := envOf [("WAVE_ACCESS_TOKEN", "token-abc")]

/-- A concrete successful upstream response carrying payload `42`. -/
def respOkPayload : UpstreamHttpResponse Nat :=
  { ok := true, status := 200, statusText := "OK", bodyText := "{}",
    json := { data := some 42, errors := some [] } }

/-- Witness for C1: on a concrete 2xx response with an empty errors list
and a present data field, the transport returns the payload unchanged. -/
theorem waveGraphQLFetch_classification_witness :
    waveGraphQLFetch envWithToken respOkPayload = .ok 42 :=
  (waveGraphQLFetch_classification envWithToken "token-abc" rfl (by decide)
    respOkPayload).2.2.2 42 rfl (Or.inr rfl) rfl

/-- C2: for every `BusinessKey`, credential resolution either returns a
value whose identifiers are all non-empty, or fails with an error naming
the specific missing environment entry (an entry that is indeed unset or
empty in the environment); no partially-resolved credential set is ever
returned. -/
theorem credentialResolution_atomic (env : Env) (key : BusinessKey) :
    (∀ id, getBusinessIdFromKey env key = .ok id → id ≠ "") ∧
    (∀ msg, getBusinessIdFromKey env key = .error msg →
      ∃ name, msg = name ++ " is not set" ∧ (env name = none ∨ env name = some "")) ∧
    (∀ config, getWavePaymentConfig env key = .ok config →
      config.anchorAccountId ≠ "" ∧ config.salesAccountId ≠ "") ∧
    (∀ msg, getWavePaymentConfig env key = .error msg →
      ∃ name, msg = name ++ " is not set" ∧ (env name = none ∨ env name = some "")) := by
  have hread : ∀ name,
      (∀ id, readEnv env name = .ok id → id ≠ "") ∧
      (∀ msg, readEnv env name = .error msg →
        msg = name ++ " is not set" ∧ (env name = none ∨ env name = some "")) := by
    intro name
    constructor
    · intro id hid
      unfold readEnv at hid
      cases henv : env name with
      | none => rw [henv] at hid; cases hid
      | some v =>
        rw [henv] at hid
        by_cases hv : v = ""
        · subst hv; simp at hid
        · simp [hv] at hid; subst hid; exact hv
    · intro msg hmsg
      unfold readEnv at hmsg
      cases henv : env name with
      | none =>
        rw [henv] at hmsg
        cases hmsg
        exact ⟨rfl, Or.inl rfl⟩
      | some v =>
        rw [henv] at hmsg
        by_cases hv : v = ""
        · subst hv
          simp at hmsg
          exact ⟨hmsg.symm, Or.inr rfl⟩
        · simp [hv] at hmsg
  have hpair : ∀ anchorName salesName,
      (∀ config, readPaymentPair env anchorName salesName = .ok config →
        config.anchorAccountId ≠ "" ∧ config.salesAccountId ≠ "") ∧
      (∀ msg, readPaymentPair env anchorName salesName = .error msg →
        ∃ name, msg = name ++ " is not set" ∧ (env name = none ∨ env name = some "")) := by
    intro anchorName salesName
    constructor
    · intro config hconfig
      unfold readPaymentPair at hconfig
      cases ha : readEnv env anchorName with
      | error e => rw [ha] at hconfig; cases hconfig
      | ok anchor =>
        rw [ha] at hconfig
        cases hs : readEnv env salesName with
        | error e => rw [hs] at hconfig; cases hconfig
        | ok sales =>
          rw [hs] at hconfig
          cases hconfig
          exact ⟨(hread anchorName).1 anchor ha, (hread salesName).1 sales hs⟩
    · intro msg hmsg
      unfold readPaymentPair at hmsg
      cases ha : readEnv env anchorName with
      | error e =>
        rw [ha] at hmsg
        cases hmsg
        exact ⟨anchorName, (hread anchorName).2 _ ha⟩
      | ok anchor =>
        rw [ha] at hmsg
        cases hs : readEnv env salesName with
        | error e =>
          rw [hs] at hmsg
          cases hmsg
          exact ⟨salesName, (hread salesName).2 _ hs⟩
        | ok sales => rw [hs] at hmsg; cases hmsg
  refine ⟨?_, ?_, ?_, ?_⟩
  · intro id hid
    cases key <;> exact (hread _).1 id hid
  · intro msg hmsg
    cases key <;> exact ⟨_, (hread _).2 msg hmsg⟩
  · intro config hconfig
    cases key <;> exact (hpair _ _).1 config hconfig
  · intro msg hmsg
    cases key <;> exact (hpair _ _).2 msg hmsg

/-- A concrete environment missing the bako anchor account entry. -/
def envMissingAnchor : Env :=
  envOf [("WAVE_BUSINESS_ID_BAKO", "biz-2"), ("WAVE_SALES_ACCOUNT_ID_BAKO", "sales-2")]

/-- Witness for C2: with the bako anchor account entry unset, the error
produced by resolution names an entry that is indeed missing. -/
theorem credentialResolution_atomic_witness :
    ∃ name, ("WAVE_ANCHOR_ACCOUNT_ID_BAKO is not set" : String) = name ++ " is not set" ∧
      (envMissingAnchor name = none ∨ envMissingAnchor name = some "") :=
  (credentialResolution_atomic envMissingAnchor .bako).2.2.2 _ rfl

/-!
## Calendar model

The invoice-creation routes compute default dates with the JavaScript
`Date` runtime: `new Date().toISOString().slice(0, 10)` for today's UTC
date, and `addDaysUtc` builds `new Date(baseDate + "T00:00:00Z")`, calls
`setUTCDate(getUTCDate() + days)` and re-formats.  ECMAScript `Date`
arithmetic is day-number arithmetic over the proleptic Gregorian calendar;
we model it by an explicit bijection between calendar dates and day
numbers (days since 1970-01-01 UTC), with a handful of reference values
checked by `decide` below.
-/

/-- Cumulative day count from the reference point 0000-03-01 to the start
of March-based year `t` (in the March-based reckoning a year runs March
through February, so leap days fall at the end). -/
def gdays (t : Int) : Int := 365*t + t / 4 - t / 100 + t / 400

/-- Day-of-March-based-year at which shifted month `mp` starts
(`mp = 0` is March, …, `mp = 11` is February). -/
def monthStartDoy (mp : Int) : Int := (153 * mp + 2) / 5

/-- Finds the March-based year containing shifted day number `z`: an
approximation by the average year length 146097/400, corrected by at most
one in either direction. -/
def findYs (z : Int) : Int :=
  if z < gdays ((400 * z) / 146097) then (400 * z) / 146097 - 1
  else if gdays ((400 * z) / 146097 + 1) ≤ z then (400 * z) / 146097 + 1
  else (400 * z) / 146097

/-- Scaled closed form of `gdays`, the workhorse for all calendar
arithmetic below. -/
theorem gdays_scaled (t : Int) :
    400 * gdays t = 146097*t - 100*(t % 4) + 4*(t % 100) - (t % 400) := by
  simp only [gdays]
  omega

/-- `findYs` is correct on any day number lying inside year `ys`. -/
theorem findYs_eq (z ys : Int) (h1 : gdays ys ≤ z) (h2 : z < gdays (ys + 1)) :
    findYs z = ys := by
  have ha := gdays_scaled ys
  have hb := gdays_scaled (ys + 1)
  have hrange : (400 * z) / 146097 = ys - 1 ∨ (400 * z) / 146097 = ys := by
    omega
  unfold findYs
  rcases hrange with hr | hr <;> rw [hr]
  · have hc := gdays_scaled (ys - 1)
    have hmono : gdays (ys - 1) ≤ gdays ys := by omega
    rw [if_neg (by omega), if_pos (by simpa using h1)]
    omega
  · rw [if_neg (by omega), if_neg (by omega)]

/-- A calendar date (proleptic Gregorian, as used by ECMAScript `Date`
UTC accessors). -/
structure CivilDate where
  year : Int
  month : Int
  day : Int
deriving DecidableEq

/-- Gregorian leap-year rule. -/
def isLeapYear (y : Int) : Bool :=
  (y % 4 == 0 && y % 100 != 0) || y % 400 == 0

/-- Length of month `m` of year `y`. -/
def daysInMonth (y m : Int) : Int :=
  if m = 2 then (if isLeapYear y then 29 else 28)
  else if m = 4 ∨ m = 6 ∨ m = 9 ∨ m = 11 then 30
  else 31

/-- A date whose month and day lie in range. -/
def ValidDate (c : CivilDate) : Prop :=
  1 ≤ c.month ∧ c.month ≤ 12 ∧ 1 ≤ c.day ∧ c.day ≤ daysInMonth c.year c.month

instance (c : CivilDate) : Decidable (ValidDate c) := by
  unfold ValidDate
  infer_instance

/-- Day number (days since 1970-01-01 UTC, the ECMAScript epoch) of a
calendar date. -/
def daysFromCivil (c : CivilDate) : Int :=
  gdays (if c.month ≤ 2 then c.year - 1 else c.year)
    + monthStartDoy ((c.month + 9) % 12) + c.day - 1 - 719468

/-- Rebuilds the calendar date lying `doy` days into March-based year
`ys`. -/
def mkCivil (ys doy : Int) : CivilDate :=
  ⟨if (if (5 * doy + 2) / 153 < 10 then (5 * doy + 2) / 153 + 3
        else (5 * doy + 2) / 153 - 9) ≤ 2 then ys + 1 else ys,
   if (5 * doy + 2) / 153 < 10 then (5 * doy + 2) / 153 + 3 else (5 * doy + 2) / 153 - 9,
   doy - monthStartDoy ((5 * doy + 2) / 153) + 1⟩

/-- Calendar date of a day number (inverse of `daysFromCivil`). -/
def civilFromDays (z : Int) : CivilDate :=
  mkCivil (findYs (z + 719468)) (z + 719468 - gdays (findYs (z + 719468)))

/-- The calendar successor of a date. -/
def nextDay (c : CivilDate) : CivilDate :=
  if c.day < daysInMonth c.year c.month then ⟨c.year, c.month, c.day + 1⟩
  else if c.month < 12 then ⟨c.year, c.month + 1, 1⟩
  else ⟨c.year + 1, 1, 1⟩

example : civilFromDays 0 = ⟨1970, 1, 1⟩ := by decide
example : daysFromCivil ⟨1970, 1, 1⟩ = 0 := by decide
example : daysFromCivil ⟨2024, 1, 28⟩ = 19750 := by decide
example : civilFromDays 19757 = ⟨2024, 2, 4⟩ := by decide
example : civilFromDays (-1) = ⟨1969, 12, 31⟩ := by decide
example : daysFromCivil ⟨2000, 2, 29⟩ = 11016 := by decide
example : civilFromDays 11016 = ⟨2000, 2, 29⟩ := by decide
example : civilFromDays 11017 = ⟨2000, 3, 1⟩ := by decide

/-- Unfolds `civilFromDays` on a day number presented as year start plus
month start plus day offset. -/
theorem civilFromDays_parts (ys mp d : Int) (hmp1 : 0 ≤ mp) (hmp2 : mp ≤ 11) (hd1 : 1 ≤ d)
    (hd2 : monthStartDoy mp + d ≤ monthStartDoy (mp + 1) ∨
      (mp = 11 ∧ monthStartDoy mp + d - 1 ≤ 365))
    (hbound : monthStartDoy mp + d - 1 < gdays (ys + 1) - gdays ys) :
    civilFromDays (gdays ys + monthStartDoy mp + d - 1 - 719468) =
      ⟨if (if mp < 10 then mp + 3 else mp - 9) ≤ 2 then ys + 1 else ys,
       if mp < 10 then mp + 3 else mp - 9, d⟩ := by
  have hms0 : 0 ≤ monthStartDoy mp := by
    simp only [monthStartDoy]
    omega
  unfold civilFromDays
  rw [show gdays ys + monthStartDoy mp + d - 1 - 719468 + 719468 =
        gdays ys + (monthStartDoy mp + d - 1) by ring]
  rw [findYs_eq (gdays ys + (monthStartDoy mp + d - 1)) ys (by omega) (by omega)]
  rw [show gdays ys + (monthStartDoy mp + d - 1) - gdays ys = monthStartDoy mp + d - 1 by ring]
  unfold mkCivil
  have hmpx : (5 * (monthStartDoy mp + d - 1) + 2) / 153 = mp := by
    interval_cases mp <;> simp only [monthStartDoy] at * <;> omega
  rw [hmpx]
  have hdx : monthStartDoy mp + d - 1 - monthStartDoy mp + 1 = d := by ring
  rw [hdx]

set_option maxHeartbeats 1600000 in
/-- Roundtrip: converting a valid date to its day number and back yields
the same date. -/
theorem civilFromDays_daysFromCivil (c : CivilDate) (h : ValidDate c) :
    civilFromDays (daysFromCivil c) = c := by
  obtain ⟨cy, cm, cd⟩ := c
  obtain ⟨hm1, hm2, hd1, hd2⟩ := h
  simp only at hm1 hm2 hd1 hd2
  have hlen : ∀ t : Int, 365 ≤ gdays (t + 1) - gdays t := by
    intro t
    have ha := gdays_scaled t
    have hb := gdays_scaled (t + 1)
    omega
  have hleap : ∀ t : Int, isLeapYear (t + 1) = true → 366 ≤ gdays (t + 1) - gdays t := by
    intro t ht
    simp only [isLeapYear, Bool.or_eq_true, Bool.and_eq_true, beq_iff_eq, bne_iff_ne] at ht
    have ha := gdays_scaled t
    have hb := gdays_scaled (t + 1)
    omega
  simp only [daysFromCivil]
  interval_cases cm <;>
    simp_all only [daysInMonth, show ¬((3:Int) = 2) from by norm_num] <;>
    norm_num [monthStartDoy] at hd2 ⊢
  · have := civilFromDays_parts (cy - 1) 10 cd (by norm_num) (by norm_num) hd1
      (by simp only [monthStartDoy]; norm_num; omega)
      (by simp only [monthStartDoy]; have := hlen (cy - 1); norm_num at *; omega)
    norm_num [monthStartDoy] at this
    simpa using this
  · by_cases hl : isLeapYear cy = true
    · rw [hl] at hd2
      simp only [if_pos rfl] at hd2
      have := civilFromDays_parts (cy - 1) 11 cd (by norm_num) (by norm_num) hd1
        (by right; constructor; rfl; simp only [monthStartDoy]; norm_num; omega)
        (by simp only [monthStartDoy]
            have := hleap (cy - 1) (by rwa [show cy - 1 + 1 = cy by ring])
            norm_num at *; omega)
      norm_num [monthStartDoy] at this
      simpa using this
    · rw [Bool.not_eq_true] at hl
      rw [hl] at hd2
      simp only [Bool.false_eq_true, if_false] at hd2
      have := civilFromDays_parts (cy - 1) 11 cd (by norm_num) (by norm_num) hd1
        (by right; constructor; rfl; simp only [monthStartDoy]; norm_num; omega)
        (by simp only [monthStartDoy]; have := hlen (cy - 1); norm_num at *; omega)
      norm_num [monthStartDoy] at this
      simpa using this
  · have := civilFromDays_parts cy 0 cd (by norm_num) (by norm_num) hd1
      (by left; simp only [monthStartDoy]; norm_num; omega)
      (by simp only [monthStartDoy]; have := hlen cy; norm_num at *; omega)
    norm_num [monthStartDoy] at this
    simpa using this
  · have := civilFromDays_parts cy 1 cd (by norm_num) (by norm_num) hd1
      (by left; simp only [monthStartDoy]; norm_num; omega)
      (by simp only [monthStartDoy]; have := hlen cy; norm_num at *; omega)
    norm_num [monthStartDoy] at this
    simpa using this
  · have := civilFromDays_parts cy 2 cd (by norm_num) (by norm_num) hd1
      (by left; simp only [monthStartDoy]; norm_num; omega)
      (by simp only [monthStartDoy]; have := hlen cy; norm_num at *; omega)
    norm_num [monthStartDoy] at this
    simpa using this
  · have := civilFromDays_parts cy 3 cd (by norm_num) (by norm_num) hd1
      (by left; simp only [monthStartDoy]; norm_num; omega)
      (by simp only [monthStartDoy]; have := hlen cy; norm_num at *; omega)
    norm_num [monthStartDoy] at this
    simpa using this
  · have := civilFromDays_parts cy 4 cd (by norm_num) (by norm_num) hd1
      (by left; simp only [monthStartDoy]; norm_num; omega)
      (by simp only [monthStartDoy]; have := hlen cy; norm_num at *; omega)
    norm_num [monthStartDoy] at this
    simpa using this
  · have := civilFromDays_parts cy 5 cd (by norm_num) (by norm_num) hd1
      (by left; simp only [monthStartDoy]; norm_num; omega)
      (by simp only [monthStartDoy]; have := hlen cy; norm_num at *; omega)
    norm_num [monthStartDoy] at this
    simpa using this
  · have := civilFromDays_parts cy 6 cd (by norm_num) (by norm_num) hd1
      (by left; simp only [monthStartDoy]; norm_num; omega)
      (by simp only [monthStartDoy]; have := hlen cy; norm_num at *; omega)
    norm_num [monthStartDoy] at this
    simpa using this
  · have := civilFromDays_parts cy 7 cd (by norm_num) (by norm_num) hd1
      (by left; simp only [monthStartDoy]; norm_num; omega)
      (by simp only [monthStartDoy]; have := hlen cy; norm_num at *; omega)
    norm_num [monthStartDoy] at this
    simpa using this
  · have := civilFromDays_parts cy 8 cd (by norm_num) (by norm_num) hd1
      (by left; simp only [monthStartDoy]; norm_num; omega)
      (by simp only [monthStartDoy]; have := hlen cy; norm_num at *; omega)
    norm_num [monthStartDoy] at this
    simpa using this
  · have := civilFromDays_parts cy 9 cd (by norm_num) (by norm_num) hd1
      (by left; simp only [monthStartDoy]; norm_num; omega)
      (by simp only [monthStartDoy]; have := hlen cy; norm_num at *; omega)
    norm_num [monthStartDoy] at this
    simpa using this

/-- Arithmetic reformulation of the leap-year rule. -/
theorem isLeapYear_iff (y : Int) :
    isLeapYear y = true ↔ ((y % 4 = 0 ∧ y % 100 ≠ 0) ∨ y % 400 = 0) := by
  simp [isLeapYear, Bool.or_eq_true, Bool.and_eq_true, beq_iff_eq, bne_iff_ne]

/-- Every month has at least one day. -/
theorem daysInMonth_pos (y m : Int) : 1 ≤ daysInMonth y m := by
  unfold daysInMonth
  split_ifs <;> norm_num

set_option maxHeartbeats 1600000 in
/-- The day number of the calendar successor is one more, across month
and year boundaries. -/
theorem daysFromCivil_nextDay (c : CivilDate) (h : ValidDate c) :
    daysFromCivil (nextDay c) = daysFromCivil c + 1 := by
  obtain ⟨cy, cm, cd⟩ := c
  obtain ⟨hm1, hm2, hd1, hd2⟩ := h
  simp only at hm1 hm2 hd1 hd2
  have hsc1 := gdays_scaled (cy - 1)
  have hsc2 := gdays_scaled cy
  interval_cases cm <;>
    simp_all only [nextDay, daysInMonth, daysFromCivil, monthStartDoy] <;>
    norm_num at * <;>
    split_ifs at * <;>
    simp_all only [isLeapYear_iff] <;>
    norm_num at * <;>
    omega

/-- The calendar successor of a valid date is valid. -/
theorem nextDay_valid (c : CivilDate) (h : ValidDate c) : ValidDate (nextDay c) := by
  obtain ⟨cy, cm, cd⟩ := c
  obtain ⟨hm1, hm2, hd1, hd2⟩ := h
  simp only at hm1 hm2 hd1 hd2
  unfold nextDay ValidDate
  split_ifs with h1 h2 <;> simp only at *
  · exact ⟨hm1, hm2, by omega, by omega⟩
  · exact ⟨by omega, by omega, by omega, daysInMonth_pos cy (cm + 1)⟩
  · exact ⟨by omega, by omega, by omega, daysInMonth_pos (cy + 1) 1⟩

/-- Adding `n` days at the day-number level equals iterating the calendar
successor `n` times: the engine's date arithmetic crosses month and year
boundaries correctly. -/
theorem civilFromDays_add (c : CivilDate) (h : ValidDate c) (n : Nat) :
    civilFromDays (daysFromCivil c + n) = nextDay^[n] c := by
  induction n generalizing c with
  | zero => simpa using civilFromDays_daysFromCivil c h
  | succ k ih =>
    rw [Function.iterate_succ_apply]
    rw [← ih (nextDay c) (nextDay_valid c h)]
    have h3 := daysFromCivil_nextDay c h
    congr 1
    push_cast
    omega

/-- The character for decimal digit `n`. -/
def digitChar (n : Int) : Char := Char.ofNat (48 + n.toNat)

/-- The decimal value of a digit character. -/
def digitVal (c : Char) : Int := (c.toNat : Int) - 48

/-- Membership of the character range 0-9. -/
def isDigitChar (c : Char) : Bool := 48 ≤ c.toNat && c.toNat ≤ 57

/-- Renders a date in `YYYY-MM-DD` form with zero padding (the first ten
characters of `Date.prototype.toISOString` for years 0–9999). -/
def toIso (c : CivilDate) : String :=
  String.mk [digitChar (c.year / 1000 % 10), digitChar (c.year / 100 % 10),
    digitChar (c.year / 10 % 10), digitChar (c.year % 10), '-',
    digitChar (c.month / 10 % 10), digitChar (c.month % 10), '-',
    digitChar (c.day / 10 % 10), digitChar (c.day % 10)]

/-- Parses the `YYYY-MM-DD` grammar on a character list, enforcing valid
month and day ranges as the engine's ISO date parser does; any other
shape is rejected (and a rejected date string makes the `Date`
constructor return an invalid date). -/
def parseIsoChars : List Char → Option CivilDate
  | [y1, y2, y3, y4, h1, m1, m2, h2, d1, d2] =>
    if isDigitChar y1 ∧ isDigitChar y2 ∧ isDigitChar y3 ∧ isDigitChar y4 ∧ h1 = '-' ∧
        isDigitChar m1 ∧ isDigitChar m2 ∧ h2 = '-' ∧ isDigitChar d1 ∧ isDigitChar d2 then
      if 1 ≤ 10 * digitVal m1 + digitVal m2 ∧ 10 * digitVal m1 + digitVal m2 ≤ 12 ∧
          1 ≤ 10 * digitVal d1 + digitVal d2 ∧
          10 * digitVal d1 + digitVal d2 ≤
            daysInMonth
              (1000 * digitVal y1 + 100 * digitVal y2 + 10 * digitVal y3 + digitVal y4)
              (10 * digitVal m1 + digitVal m2) then
        some ⟨1000 * digitVal y1 + 100 * digitVal y2 + 10 * digitVal y3 + digitVal y4,
          10 * digitVal m1 + digitVal m2, 10 * digitVal d1 + digitVal d2⟩
      else none
    else none
  | _ => none

/-- Parses a `YYYY-MM-DD` date string. -/
def parseIso (s : String) : Option CivilDate := parseIsoChars s.data

/-- A successfully parsed date string denotes a valid date with a
four-digit year. -/
theorem parseIso_valid (s : String) (c : CivilDate) (h : parseIso s = some c) :
    ValidDate c ∧ 0 ≤ c.year ∧ c.year ≤ 9999 := by
  unfold parseIso parseIsoChars at h
  split at h
  · split_ifs at h with h1 h2
    rcases h1 with ⟨hy1, hy2, hy3, hy4, _, hm1c, hm2c, _, hd1c, hd2c⟩
    cases h
    obtain ⟨hb1, hb2, hb3, hb4⟩ := h2
    refine ⟨⟨hb1, hb2, hb3, hb4⟩, ?_, ?_⟩ <;>
    · simp only [isDigitChar, Bool.and_eq_true, decide_eq_true_eq] at hy1 hy2 hy3 hy4
      simp only [digitVal]
      omega
  · cases h

/-- Digit characters pass the digit test. -/
theorem digitChar_isDigit (n : Int) (h0 : 0 ≤ n) (h9 : n ≤ 9) :
    isDigitChar (digitChar n) = true := by
  interval_cases n <;> decide

/-- `digitVal` inverts `digitChar` on digits. -/
theorem digitVal_digitChar (n : Int) (h0 : 0 ≤ n) (h9 : n ≤ 9) :
    digitVal (digitChar n) = n := by
  interval_cases n <;> decide

/-- Formatting a valid four-digit-year date and parsing it back yields
the same date. -/
theorem parseIso_toIso (c : CivilDate) (h : ValidDate c)
    (hy0 : 0 ≤ c.year) (hy1 : c.year ≤ 9999) : parseIso (toIso c) = some c := by
  obtain ⟨hm1, hm2, hd1, hd2⟩ := h
  have hdm : daysInMonth c.year c.month ≤ 31 := by
    unfold daysInMonth
    split_ifs <;> omega
  unfold parseIso toIso
  rw [show (String.mk [digitChar (c.year / 1000 % 10), digitChar (c.year / 100 % 10),
    digitChar (c.year / 10 % 10), digitChar (c.year % 10), '-',
    digitChar (c.month / 10 % 10), digitChar (c.month % 10), '-',
    digitChar (c.day / 10 % 10), digitChar (c.day % 10)]).data =
      [digitChar (c.year / 1000 % 10), digitChar (c.year / 100 % 10),
      digitChar (c.year / 10 % 10), digitChar (c.year % 10), '-',
      digitChar (c.month / 10 % 10), digitChar (c.month % 10), '-',
      digitChar (c.day / 10 % 10), digitChar (c.day % 10)] from rfl]
  simp only [parseIsoChars]
  rw [if_pos (by
    refine ⟨?_, ?_, ?_, ?_, trivial, ?_, ?_, trivial, ?_, ?_⟩ <;>
      exact digitChar_isDigit _ (by omega) (by omega))]
  rw [digitVal_digitChar _ (by omega) (by omega), digitVal_digitChar _ (by omega) (by omega),
    digitVal_digitChar _ (by omega) (by omega), digitVal_digitChar _ (by omega) (by omega),
    digitVal_digitChar _ (by omega) (by omega), digitVal_digitChar _ (by omega) (by omega),
    digitVal_digitChar _ (by omega) (by omega), digitVal_digitChar _ (by omega) (by omega)]
  have hy : 1000 * (c.year / 1000 % 10) + 100 * (c.year / 100 % 10) +
      10 * (c.year / 10 % 10) + c.year % 10 = c.year := by omega
  have hm : 10 * (c.month / 10 % 10) + c.month % 10 = c.month := by omega
  have hd : 10 * (c.day / 10 % 10) + c.day % 10 = c.day := by omega
  rw [hy, hm, hd]
  rw [if_pos ⟨hm1, hm2, hd1, hd2⟩]

/-- Today's UTC date in `YYYY-MM-DD` form
(`new Date().toISOString().slice(0, 10)` in `isoDateTodayUTC` of the
invoice-creation routes), as a function of the current UTC date. -/
def isoDateTodayUTC (now : CivilDate) : String := toIso now

/-- `addDaysUtc` from the invoice-creation routes: parse the base date,
shift the day number, re-format.  `none` models the exception thrown when
the base date string does not parse as a date. -/
def addDaysUtc (baseDate : String) (days : Int) : Option String :=
  (parseIso baseDate).map (fun c => toIso (civilFromDays (daysFromCivil c + days)))

/-- `computeDates` from the second invoice-creation route variant; the
first variant inlines the same two defaults
(`body.invoiceDate ?? isoDateTodayUTC()` and
`body.dueDate ?? addDaysUtc(invoiceDate, 7)`). -/
def computeDates (now : CivilDate) (invoiceDate dueDate : Option String) :
    String × Option String :=
  (invoiceDate.getD (isoDateTodayUTC now),
   match dueDate with
   | some d => some d
   | none => addDaysUtc (invoiceDate.getD (isoDateTodayUTC now)) 7)

/-- C7: when `invoiceDate` is omitted the computed invoice date is the
current UTC date in `YYYY-MM-DD` form, and when `dueDate` is omitted the
computed due date is the invoice date plus seven calendar days (seven
iterations of the calendar successor, hence crossing month and year
boundaries correctly), both when the invoice date was supplied and when
it was itself defaulted. -/
theorem computeDates_defaults (now : CivilDate) (hnow : ValidDate now)
    (hy0 : 0 ≤ now.year) (hy1 : now.year ≤ 9999) :
    (∀ dueDate, (computeDates now none dueDate).1 = toIso now) ∧
    parseIso (toIso now) = some now ∧
    (∀ s c, parseIso s = some c →
      (computeDates now (some s) none).2 = some (toIso (nextDay^[7] c))) ∧
    (computeDates now none none).2 = some (toIso (nextDay^[7] now)) := by
  have hstep : ∀ s c, parseIso s = some c →
      addDaysUtc s 7 = some (toIso (nextDay^[7] c)) := by
    intro s c hc
    obtain ⟨hval, _, _⟩ := parseIso_valid s c hc
    unfold addDaysUtc
    rw [hc]
    have hcast : daysFromCivil c + (7:Int) = daysFromCivil c + ((7:Nat):Int) := by norm_num
    simp only [Option.map_some']
    rw [hcast, civilFromDays_add c hval 7]
  refine ⟨fun dueDate => rfl, parseIso_toIso now hnow hy0 hy1, ?_, ?_⟩
  · intro s c hc
    simp only [computeDates, Option.getD_some]
    exact hstep s c hc
  · simp only [computeDates, Option.getD_none]
    exact hstep (isoDateTodayUTC now) now (parseIso_toIso now hnow hy0 hy1)

/-- Witness for C7: on 2024-05-05 an omitted invoice date defaults to
"2024-05-05", and an invoice date of "2024-01-28" with omitted due date
yields the due date "2024-02-04", crossing the month boundary. -/
theorem computeDates_defaults_witness :
    (computeDates ⟨2024, 5, 5⟩ none (some "2024-06-01")).1 = "2024-05-05" ∧
    (computeDates ⟨2024, 5, 5⟩ (some "2024-01-28") none).2 = some "2024-02-04" := by
  constructor
  · exact ((computeDates_defaults ⟨2024, 5, 5⟩ (by decide) (by decide) (by decide)).1
      (some "2024-06-01")).trans (by decide)
  · exact ((computeDates_defaults ⟨2024, 5, 5⟩ (by decide) (by decide) (by decide)).2.2.1
      "2024-01-28" ⟨2024, 1, 28⟩ (by decide)).trans (by decide)

/-!
## Invoice-creation request validation

Two route variants validate invoice-creation bodies: the file
`src/app/api/wave/invoices/create/route.ts` (namespace `CreateInvoice`
below) and a second variant of the same route (namespace
`CreateInvoiceV2`).  They differ in the per-item numeric predicates: the
first checks `Number.isNaN`, the second checks `Number.isFinite`.
-/

namespace CreateInvoice

/-- One element of the `items` array of a create-invoice request body.
`quantity` and `unitPrice` are dynamically typed (the validator asks
`typeof`); a `none` field is an absent (`undefined`) field. -/
structure RawItem where
  description : Option String
  quantity : Option JsField
  unitPrice : Option JsField
deriving DecidableEq

/-- `CreateInvoiceRequestBody`: the parsed JSON body.  `items := none`
models a body whose `items` is absent or not an array
(`Array.isArray` fails). -/
structure RequestBody where
  businessKey : Option JsField
  customerId : Option JsField
  currency : Option String
  invoiceDate : Option String
  dueDate : Option String
  memo : Option String
  items : Option (List RawItem)
deriving DecidableEq

/-- The check `!body.businessKey || !validKeys.includes(body.businessKey)`
(an `includes` on a string list is only true for a member string). -/
def businessKeyInvalid (v : Option JsField) : Bool :=
  match v with
  | none => true
  | some f =>
    !f.truthy || !(match f with
      | .str s => validKeys.contains s
      | _ => false)

/-- The check `!body.customerId || typeof body.customerId !== 'string' ||
!body.customerId.trim()`: any non-string is rejected (either falsy or
failing the `typeof` test), a string is rejected when empty or
whitespace-only. -/
def customerIdInvalid (v : Option JsField) : Bool :=
  match v with
  | some (.str s) => s == "" || jsTrim s == ""
  | _ => true

/-- Line 140 of the create route: `typeof item.unitPrice !== 'number' ||
Number.isNaN(item.unitPrice) || item.unitPrice <= 0`. -/
def unitPriceInvalid (v : Option JsField) : Bool :=
  match v with
  | some (.num x) => x.isNaN || x.jsLe (.fin 0)
  | _ => true

/-- Line 143 of the create route: `item.quantity !== undefined &&
(typeof item.quantity !== 'number' || item.quantity <= 0)`. -/
def quantityInvalid (v : Option JsField) : Bool :=
  match v with
  | none => false
  | some (.num x) => x.jsLe (.fin 0)
  | some _ => true

end CreateInvoice

namespace CreateInvoiceV2

/-- Line 151 of the second variant: `typeof item.unitPrice !== 'number' ||
!Number.isFinite(item.unitPrice) || item.unitPrice <= 0`. -/
def unitPriceInvalid (v : Option JsField) : Bool :=
  match v with
  | some (.num x) => !x.isFinite || x.jsLe (.fin 0)
  | _ => true

/-- Line 154 of the second variant: `item.quantity !== undefined &&
(typeof item.quantity !== 'number' || !Number.isFinite(item.quantity) ||
item.quantity <= 0)`. -/
def quantityInvalid (v : Option JsField) : Bool :=
  match v with
  | none => false
  | some (.num x) => !x.isFinite || x.jsLe (.fin 0)
  | some _ => true

end CreateInvoiceV2

/-- The item loop shared (up to the two per-item predicates) by both
validators: walk the items with a running index, reporting the first
offending item's index in the thrown message. -/
def validateItemsLoop (badPrice badQty : Option JsField → Bool) (index : Nat) :
    List CreateInvoice.RawItem → Except String Unit
  | [] => .ok ()
  | item :: rest =>
    if badPrice item.unitPrice then
      .error ("Invalid unitPrice for item " ++ toString index)
    else if badQty item.quantity then
      .error ("Invalid quantity for item " ++ toString index)
    else validateItemsLoop badPrice badQty (index + 1) rest

/-- The item loop of the create route (lines 139-146). -/
def CreateInvoice.validateItems : Nat → List CreateInvoice.RawItem → Except String Unit :=
  validateItemsLoop CreateInvoice.unitPriceInvalid CreateInvoice.quantityInvalid

/-- The item loop of the second variant (lines 150-157). -/
def CreateInvoiceV2.validateItems : Nat → List CreateInvoice.RawItem → Except String Unit :=
  validateItemsLoop CreateInvoiceV2.unitPriceInvalid CreateInvoiceV2.quantityInvalid

/-- `validateRequestBody` from the create route (lines 124-147): business
key, customer id, items presence, then the item loop. -/
def CreateInvoice.validateRequestBody (body : CreateInvoice.RequestBody) :
    Except String Unit :=
  if CreateInvoice.businessKeyInvalid body.businessKey then .error "Invalid businessKey"
  else if CreateInvoice.customerIdInvalid body.customerId then .error "Missing customerId"
  else
    match body.items with
    | none => .error "Missing or invalid items"
    | some items =>
      if items.isEmpty then .error "Missing or invalid items"
      else CreateInvoice.validateItems 0 items

/-- `validateRequestBody` from the second variant (lines 132-158), which
receives the items list already defaulted by
`Array.isArray(body.items) ? body.items : []`. -/
def CreateInvoiceV2.validateRequestBody (body : CreateInvoice.RequestBody)
    (items : List CreateInvoice.RawItem) : Except String Unit :=
  if CreateInvoice.businessKeyInvalid body.businessKey then .error "Invalid businessKey"
  else if CreateInvoice.customerIdInvalid body.customerId then .error "Missing customerId"
  else if items.isEmpty then .error "Missing or invalid items"
  else CreateInvoiceV2.validateItems 0 items

/-- Acceptance of the item loop means every item passes both predicates. -/
theorem validateItemsLoop_ok_iff (badPrice badQty : Option JsField → Bool)
    (index : Nat) (items : List CreateInvoice.RawItem) :
    validateItemsLoop badPrice badQty index items = .ok () ↔
      ∀ item ∈ items, badPrice item.unitPrice = false ∧ badQty item.quantity = false := by
  induction items generalizing index with
  | nil => simp [validateItemsLoop]
  | cons item rest ih =>
    simp only [validateItemsLoop]
    split_ifs with h1 h2
    · simp only [List.mem_cons]
      constructor
      · intro h
        cases h
      · intro h
        exact absurd (h item (Or.inl rfl)).1 (by simp [h1])
    · simp only [List.mem_cons]
      constructor
      · intro h
        cases h
      · intro h
        exact absurd (h item (Or.inl rfl)).2 (by simp [h2])
    · rw [ih (index + 1)]
      simp only [List.mem_cons]
      constructor
      · intro h
        rintro x (rfl | hx)
        · exact ⟨Bool.not_eq_true _ ▸ h1, Bool.not_eq_true _ ▸ h2⟩
        · exact h x hx
      · intro h x hx
        exact h x (Or.inr hx)

/-- A rejection of the item loop carries the message naming the index of
an item that indeed fails the corresponding predicate. -/
theorem validateItemsLoop_error (badPrice badQty : Option JsField → Bool)
    (index : Nat) (items : List CreateInvoice.RawItem) (msg : String)
    (h : validateItemsLoop badPrice badQty index items = .error msg) :
    ∃ i item, items.get? i = some item ∧
      ((msg = "Invalid unitPrice for item " ++ toString (index + i) ∧
        badPrice item.unitPrice = true) ∨
       (msg = "Invalid quantity for item " ++ toString (index + i) ∧
        badQty item.quantity = true)) := by
  induction items generalizing index with
  | nil => simp [validateItemsLoop] at h
  | cons item rest ih =>
    simp only [validateItemsLoop] at h
    split_ifs at h with h1 h2
    · cases h
      exact ⟨0, item, rfl, Or.inl ⟨by simp, h1⟩⟩
    · cases h
      exact ⟨0, item, rfl, Or.inr ⟨by simp, h2⟩⟩
    · obtain ⟨i, itm, hget, hcase⟩ := ih (index + 1) h
      refine ⟨i + 1, itm, by simpa using hget, ?_⟩
      have harith : index + 1 + i = index + (i + 1) := by omega
      rw [harith] at hcase
      exact hcase

/-- The create-route unit-price predicate passes exactly the numbers that
are not NaN and exceed zero in the JavaScript order: the positive finite
numbers and `+Infinity`. -/
theorem createRoute_unitPrice_accept_iff (v : Option JsField) :
    CreateInvoice.unitPriceInvalid v = false ↔
      (v = some (.num .posInf) ∨ ∃ q : ℚ, v = some (.num (.fin q)) ∧ 0 < q) := by
  cases v with
  | none => simp [CreateInvoice.unitPriceInvalid]
  | some f =>
    cases f with
    | num x =>
      cases x <;>
        simp [CreateInvoice.unitPriceInvalid, JSNum.isNaN, JSNum.jsLe]
    | null => simp [CreateInvoice.unitPriceInvalid]
    | bool b => simp [CreateInvoice.unitPriceInvalid]
    | str s => simp [CreateInvoice.unitPriceInvalid]
    | composite => simp [CreateInvoice.unitPriceInvalid]

/-- The create-route quantity predicate passes an absent quantity and any
number exceeding zero in the JavaScript order, including `+Infinity` and
`NaN` (no NaN check appears on quantities in this variant). -/
theorem createRoute_quantity_accept_iff (v : Option JsField) :
    CreateInvoice.quantityInvalid v = false ↔
      (v = none ∨ v = some (.num .posInf) ∨ v = some (.num .nan) ∨
        ∃ q : ℚ, v = some (.num (.fin q)) ∧ 0 < q) := by
  cases v with
  | none => simp [CreateInvoice.quantityInvalid]
  | some f =>
    cases f with
    | num x =>
      cases x <;>
        simp [CreateInvoice.quantityInvalid, JSNum.jsLe]
    | null => simp [CreateInvoice.quantityInvalid]
    | bool b => simp [CreateInvoice.quantityInvalid]
    | str s => simp [CreateInvoice.quantityInvalid]
    | composite => simp [CreateInvoice.quantityInvalid]

/-- The second variant's unit-price predicate passes exactly the finite
numbers strictly greater than zero. -/
theorem secondVariant_unitPrice_accept_iff (v : Option JsField) :
    CreateInvoiceV2.unitPriceInvalid v = false ↔
      ∃ q : ℚ, v = some (.num (.fin q)) ∧ 0 < q := by
  cases v with
  | none => simp [CreateInvoiceV2.unitPriceInvalid]
  | some f =>
    cases f with
    | num x =>
      cases x <;>
        simp [CreateInvoiceV2.unitPriceInvalid, JSNum.isFinite, JSNum.jsLe]
    | null => simp [CreateInvoiceV2.unitPriceInvalid]
    | bool b => simp [CreateInvoiceV2.unitPriceInvalid]
    | str s => simp [CreateInvoiceV2.unitPriceInvalid]
    | composite => simp [CreateInvoiceV2.unitPriceInvalid]

/-- The second variant's quantity predicate passes an absent quantity and
the finite numbers strictly greater than zero. -/
theorem secondVariant_quantity_accept_iff (v : Option JsField) :
    CreateInvoiceV2.quantityInvalid v = false ↔
      (v = none ∨ ∃ q : ℚ, v = some (.num (.fin q)) ∧ 0 < q) := by
  cases v with
  | none => simp [CreateInvoiceV2.quantityInvalid]
  | some f =>
    cases f with
    | num x =>
      cases x <;>
        simp [CreateInvoiceV2.quantityInvalid, JSNum.isFinite, JSNum.jsLe]
    | null => simp [CreateInvoiceV2.quantityInvalid]
    | bool b => simp [CreateInvoiceV2.quantityInvalid]
    | str s => simp [CreateInvoiceV2.quantityInvalid]
    | composite => simp [CreateInvoiceV2.quantityInvalid]

/-- A concrete create-invoice body whose only item has unit price
`+Infinity` (reachable at runtime: `JSON.parse` maps the JSON literal
`1e999` to `Infinity`). -/
def infinityPriceBody : CreateInvoice.RequestBody :=
  ⟨some (.str "manna"), some (.str "cust-1"), none, none, none, none,
    some [⟨none, none, some (.num .posInf)⟩]⟩

/-- Counterexample to C5 as stated: the create-route validator accepts a
body whose only item has `unitPrice = Infinity`, which is not a finite
number, because that validator tests `Number.isNaN` but never
`Number.isFinite`. -/
theorem createRoute_accepts_infinite_unitPrice :
    CreateInvoice.validateRequestBody infinityPriceBody = .ok () ∧
    JSNum.isFinite .posInf = false :=
  ⟨by decide, rfl⟩

/-- C5 (amended): the second validator variant accepts an item's
`unitPrice` exactly when it is a finite number strictly greater than 0
and its `quantity` exactly when absent or a finite number strictly
greater than 0, as the claim states.  The create-route variant enforces
the same zero bound but no finiteness: it also accepts a `+Infinity`
unit price, and `+Infinity` or `NaN` quantities.  In both variants a
rejection names the index of an offending item in its message. -/
theorem invoice_item_validation :
    (∀ index items, CreateInvoiceV2.validateItems index items = .ok () ↔
      ∀ item ∈ items,
        (∃ q : ℚ, item.unitPrice = some (.num (.fin q)) ∧ 0 < q) ∧
        (item.quantity = none ∨
          ∃ q : ℚ, item.quantity = some (.num (.fin q)) ∧ 0 < q)) ∧
    (∀ index items, CreateInvoice.validateItems index items = .ok () ↔
      ∀ item ∈ items,
        (item.unitPrice = some (.num .posInf) ∨
          ∃ q : ℚ, item.unitPrice = some (.num (.fin q)) ∧ 0 < q) ∧
        (item.quantity = none ∨ item.quantity = some (.num .posInf) ∨
          item.quantity = some (.num .nan) ∨
          ∃ q : ℚ, item.quantity = some (.num (.fin q)) ∧ 0 < q)) ∧
    (∀ index items msg,
      (CreateInvoice.validateItems index items = .error msg ∨
        CreateInvoiceV2.validateItems index items = .error msg) →
      ∃ i item, items.get? i = some item ∧
        (msg = "Invalid unitPrice for item " ++ toString (index + i) ∨
         msg = "Invalid quantity for item " ++ toString (index + i))) := by
  refine ⟨?_, ?_, ?_⟩
  · intro index items
    simp only [CreateInvoiceV2.validateItems]
    rw [validateItemsLoop_ok_iff]
    constructor <;> intro h item hmem <;> have hh := h item hmem
    · exact ⟨(secondVariant_unitPrice_accept_iff _).mp hh.1,
        (secondVariant_quantity_accept_iff _).mp hh.2⟩
    · exact ⟨(secondVariant_unitPrice_accept_iff _).mpr hh.1,
        (secondVariant_quantity_accept_iff _).mpr hh.2⟩
  · intro index items
    simp only [CreateInvoice.validateItems]
    rw [validateItemsLoop_ok_iff]
    constructor <;> intro h item hmem <;> have hh := h item hmem
    · exact ⟨(createRoute_unitPrice_accept_iff _).mp hh.1,
        (createRoute_quantity_accept_iff _).mp hh.2⟩
    · exact ⟨(createRoute_unitPrice_accept_iff _).mpr hh.1,
        (createRoute_quantity_accept_iff _).mpr hh.2⟩
  · intro index items msg h
    rcases h with h | h
    · simp only [CreateInvoice.validateItems] at h
      obtain ⟨i, item, hget, hcase⟩ := validateItemsLoop_error _ _ index items msg h
      exact ⟨i, item, hget, hcase.imp (fun x => x.1) (fun x => x.1)⟩
    · simp only [CreateInvoiceV2.validateItems] at h
      obtain ⟨i, item, hget, hcase⟩ := validateItemsLoop_error _ _ index items msg h
      exact ⟨i, item, hget, hcase.imp (fun x => x.1) (fun x => x.1)⟩

/-- Witness for C5 (amended): a concrete item with finite positive unit
price is accepted by both validators, and a concrete zero-price rejection
names item index 1. -/
theorem invoice_item_validation_witness :
    CreateInvoiceV2.validateItems 0 [⟨none, none, some (.num (.fin 5))⟩] = .ok () ∧
    ∃ i item,
      ([⟨none, some (.num (.fin 2)), some (.num (.fin 5))⟩,
        ⟨none, none, some (.num (.fin 0))⟩] :
          List CreateInvoice.RawItem).get? i = some item ∧
      (("Invalid unitPrice for item 1" : String) =
          "Invalid unitPrice for item " ++ toString (0 + i) ∨
        ("Invalid unitPrice for item 1" : String) =
          "Invalid quantity for item " ++ toString (0 + i)) := by
  constructor
  · exact (invoice_item_validation.1 0 [⟨none, none, some (.num (.fin 5))⟩]).mpr
      (by
        intro item hmem
        simp only [List.mem_singleton] at hmem
        subst hmem
        exact ⟨⟨5, rfl, by norm_num⟩, Or.inl rfl⟩)
  · exact invoice_item_validation.2.2 0
      [⟨none, some (.num (.fin 2)), some (.num (.fin 5))⟩,
        ⟨none, none, some (.num (.fin 0))⟩]
      "Invalid unitPrice for item 1" (Or.inl (by decide))

/-- One line item of the constructed `invoiceCreate` mutation input. -/
structure WaveItemInput where
  productId : String
  description : Option String
  quantity : JsField
  unitPrice : Option JsField
deriving DecidableEq

/-- The item construction at lines 198-203 of the create route (lines
211-216 of the second variant are character-identical): `{ productId,
description: item.description ?? null, quantity: item.quantity ?? 1,
unitPrice: item.unitPrice }` mapped over the request items. -/
def mkWaveItems (productId : String) (items : List CreateInvoice.RawItem) :
    List WaveItemInput :=
  items.map (fun item =>
    ⟨productId, item.description, nullishCoalesce item.quantity (.num (.fin 1)),
      item.unitPrice⟩)

/-- C6: for every validated body with items list of length N, the
constructed mutation input has exactly N line items; item `i` carries the
request item's `unitPrice` unchanged and its `quantity`, defaulting an
absent quantity to `1`. -/
theorem mkWaveItems_roundtrip (productId : String) (body : CreateInvoice.RequestBody)
    (items : List CreateInvoice.RawItem) (hitems : body.items = some items)
    (hok : CreateInvoice.validateRequestBody body = .ok ()) :
    (mkWaveItems productId items).length = items.length ∧
    ∀ i item, items.get? i = some item →
      ∃ w, (mkWaveItems productId items).get? i = some w ∧
        w.unitPrice = item.unitPrice ∧
        (item.quantity = none → w.quantity = .num (.fin 1)) ∧
        (∀ f, item.quantity = some f → w.quantity = f) := by
  have hloop : CreateInvoice.validateItems 0 items = .ok () := by
    unfold CreateInvoice.validateRequestBody at hok
    simp only [hitems] at hok
    split_ifs at hok
    exact hok
  constructor
  · simp [mkWaveItems]
  · intro i item hget
    have hmem : item ∈ items := List.get?_mem hget
    have hcond := (validateItemsLoop_ok_iff _ _ 0 items).mp hloop item hmem
    have hqn : item.quantity ≠ some .null := by
      intro hnull
      rw [hnull] at hcond
      simp [CreateInvoice.quantityInvalid] at hcond
    refine ⟨⟨productId, item.description,
      nullishCoalesce item.quantity (.num (.fin 1)), item.unitPrice⟩,
      by simp only [mkWaveItems, List.get?_map, hget, Option.map_some'], rfl, ?_, ?_⟩
    · intro hq
      simp [nullishCoalesce, hq]
    · intro f hf
      rw [hf] at hqn
      cases f <;> simp_all [nullishCoalesce]

/-- A concrete two-item list: the second item omits its quantity. -/
def sampleItems : List CreateInvoice.RawItem :=
  [⟨some "widget", some (.num (.fin 2)), some (.num (.fin 3))⟩,
   ⟨none, none, some (.num (.fin 7))⟩]

/-- A concrete valid create-invoice body built over `sampleItems`. -/
def sampleBody : CreateInvoice.RequestBody :=
  ⟨some (.str "bako"), some (.str "c-9"), none, none, none, none, some sampleItems⟩

/-- Witness for C6: on the concrete body, the constructed input has two
items and the second one keeps unit price 7 with quantity defaulted
to 1. -/
theorem mkWaveItems_roundtrip_witness :
    (mkWaveItems "prod-1" sampleItems).length = 2 ∧
    ∃ w, (mkWaveItems "prod-1" sampleItems).get? 1 = some w ∧
      w.unitPrice = some (.num (.fin 7)) ∧ w.quantity = .num (.fin 1) := by
  have h := mkWaveItems_roundtrip "prod-1" sampleBody sampleItems rfl (by decide)
  refine ⟨h.1.trans (by decide), ?_⟩
  obtain ⟨w, hw, hup, hqd, _⟩ :=
    h.2 1 ⟨none, none, some (.num (.fin 7))⟩ (by decide)
  exact ⟨w, hw, by rw [hup], hqd rfl⟩

/-!
## Route handlers

Each handler is modelled as a function of the environment, the inbound
request, and the HTTP response the (single) upstream GraphQL call would
obtain.  The outcome records the reply sent to the caller together with
the variables passed to `waveGraphQLFetch` (`none` when the handler
returned before reaching the call), which makes "no further processing"
statements expressible.
-/

/-- An HTTP reply: status code plus a route-specific JSON body. -/
structure HttpReply (β : Type) where
  status : Nat
  body : β
deriving DecidableEq

/-- An inbound request: the HTTP method, the `x-internal-secret` header
(`none` when absent) and the parsed JSON body (`none` when `req.json()`
threw). -/
structure ApiRequest (β : Type) where
  method : String
  internalSecret : Option String
  body : Option β
deriving DecidableEq

/-- The authentication check shared by every route:
`!secret || secret !== process.env.INTERNAL_API_SECRET`. -/
def authFailed (env : Env) (secret : Option String) : Bool :=
  match secret with
  | none => true
  | some s => s == "" || decide (env "INTERNAL_API_SECRET" ≠ some s)

/-- Reads the request's `businessKey` field as a `BusinessKey` (the
handlers call `getBusinessIdFromKey(body.businessKey)` after validating
membership, so a non-member value reaches the exhaustiveness guard and
throws). -/
def parseBusinessKeyField (v : Option JsField) : Option BusinessKey :=
  match v with
  | some (.str s) => parseBusinessKey s
  | _ => none

namespace CreateInvoice

/-- A `currency { code }` object of the upstream schema. -/
structure CurrencyObj where
  code : String
deriving DecidableEq

/-- A money object `{ value, currency }` of the upstream schema. -/
structure MoneyValue where
  value : ℚ
  currency : Option CurrencyObj
deriving DecidableEq

/-- The `customer` object of the upstream invoice. -/
structure CustomerObj where
  id : String
  name : String
  email : Option String
deriving DecidableEq

/-- The `invoice` object of the upstream `invoiceCreate` payload. -/
structure InvoiceObj where
  id : String
  invoiceNumber : Option String
  status : String
  invoiceDate : Option String
  dueDate : Option String
  viewUrl : Option String
  pdfUrl : Option String
  total : Option MoneyValue
  amountDue : Option MoneyValue
  customer : Option CustomerObj
deriving DecidableEq

/-- One upstream input error `{ code, message, path }`. -/
structure InputErrorObj where
  code : String
  message : String
  path : List String
deriving DecidableEq

/-- The `invoiceCreate` mutation payload. -/
structure InvoiceCreatePayload where
  didSucceed : Bool
  inputErrors : List InputErrorObj
  invoice : Option InvoiceObj
deriving DecidableEq

/-- `InvoiceCreateResult`: the `data` object of the mutation response. -/
structure InvoiceCreateResult where
  invoiceCreate : InvoiceCreatePayload
deriving DecidableEq

/-- The constructed `input` variable of the `invoiceCreate` mutation
(route lines 205-214). -/
structure InvoiceCreateInput where
  businessId : String
  customerId : Option JsField
  status : String
  currency : String
  invoiceDate : String
  dueDate : String
  items : List WaveItemInput
  memo : Option String
deriving DecidableEq

/-- The 200 response body (route lines 233-249). -/
structure SuccessBody where
  businessKey : Option JsField
  businessId : String
  customerId : Option JsField
  invoiceId : String
  invoiceNumber : Option String
  status : String
  total : Option ℚ
  amountDue : Option ℚ
  currency : Option String
  invoiceDate : Option String
  dueDate : Option String
  viewUrl : Option String
  pdfUrl : Option String
deriving DecidableEq

/-- The JSON bodies this route can reply with.  `unhandled` stands for an
exception escaping the handler (the framework then produces a plain 500
response). -/
inductive ReplyBody where
  | errMsg (error : String) : ReplyBody
  | errInputErrors (error : String) (inputErrors : List String) : ReplyBody
  | errDetails (error : String) (details : Option String) : ReplyBody
  | unhandled : ReplyBody
  | success (payload : SuccessBody) : ReplyBody
deriving DecidableEq

/-- The outcome of one request: the reply, and the mutation variables
passed to the upstream call when one was made. -/
structure Outcome where
  reply : HttpReply ReplyBody
  sent : Option InvoiceCreateInput
deriving DecidableEq

/-- `getGenericProductId` from the create route (lines 109-122): an env
map lookup failing with a message naming the business. -/
def getGenericProductId (env : Env) (key : BusinessKey) : Except String String :=
  match env (match key with
    | .manna => "WAVE_PRODUCT_ID_GENERIC_MANNA"
    | .bako => "WAVE_PRODUCT_ID_GENERIC_BAKO"
    | .socialion => "WAVE_PRODUCT_ID_GENERIC_SOCIALION") with
  | some v =>
    if v = "" then .error ("Missing generic product ID for business " ++ key.toKeyString)
    else .ok v
  | none => .error ("Missing generic product ID for business " ++ key.toKeyString)

/-- `POST` of `src/app/api/wave/invoices/create/route.ts`: method check,
authentication, JSON parse, validation, business id resolution (400 on
failure), product id resolution (500 on failure), date defaulting,
mutation input construction, the upstream call, and response shaping. -/
def POST (env : Env) (now : CivilDate) (req : ApiRequest RequestBody)
    (upstream : UpstreamHttpResponse InvoiceCreateResult) : Outcome :=
  if req.method ≠ "POST" then ⟨⟨405, .errMsg "Method Not Allowed"⟩, none⟩
  else if authFailed env req.internalSecret then ⟨⟨401, .errMsg "Unauthorized"⟩, none⟩
  else
    match req.body with
    | none => ⟨⟨400, .errMsg "Invalid JSON body"⟩, none⟩
    | some body =>
      match validateRequestBody body with
      | .error msg => ⟨⟨400, .errMsg msg⟩, none⟩
      | .ok _ =>
        match parseBusinessKeyField body.businessKey with
        | none => ⟨⟨400, .errMsg "Invalid businessKey"⟩, none⟩
        | some key =>
          match getBusinessIdFromKey env key with
          | .error _ => ⟨⟨400, .errMsg "Invalid businessKey"⟩, none⟩
          | .ok businessId =>
            match getGenericProductId env key with
            | .error msg => ⟨⟨500, .errMsg msg⟩, none⟩
            | .ok productId =>
              match computeDates now body.invoiceDate body.dueDate with
              | (_, none) => ⟨⟨500, .unhandled⟩, none⟩
              | (invoiceDate, some dueDate) =>
                let input : InvoiceCreateInput :=
                  ⟨businessId, body.customerId, "DRAFT", body.currency.getD "USD",
                    invoiceDate, dueDate, mkWaveItems productId (body.items.getD []),
                    body.memo⟩
                match waveGraphQLFetch env upstream with
                | .error msg =>
                  ⟨⟨500, .errDetails "Unexpected error while creating invoice in Wave"
                    (some msg)⟩, some input⟩
                | .ok data =>
                  match data.invoiceCreate.invoice with
                  | none =>
                    ⟨⟨500, .errInputErrors "Wave invoiceCreate failed"
                      (data.invoiceCreate.inputErrors.map InputErrorObj.message)⟩,
                      some input⟩
                  | some invoice =>
                    if !data.invoiceCreate.didSucceed ||
                        !data.invoiceCreate.inputErrors.isEmpty then
                      ⟨⟨500, .errInputErrors "Wave invoiceCreate failed"
                        (data.invoiceCreate.inputErrors.map InputErrorObj.message)⟩,
                        some input⟩
                    else
                      ⟨⟨200, .success ⟨body.businessKey, businessId, body.customerId,
                        invoice.id, invoice.invoiceNumber, invoice.status,
                        invoice.total.map MoneyValue.value,
                        invoice.amountDue.map MoneyValue.value,
                        (invoice.total.bind MoneyValue.currency).map CurrencyObj.code,
                        invoice.invoiceDate, invoice.dueDate, invoice.viewUrl,
                        invoice.pdfUrl⟩⟩, some input⟩

end CreateInvoice

namespace ListInvoices

/-- `ListInvoicesRequestBody` of the list-invoices route variant with a
`limit` field.  `limit` is dynamically typed (the handler asks
`typeof body.limit === 'number'`). -/
structure RequestBody where
  businessKey : Option JsField
  status : Option String
  customerSearch : Option String
  fromDate : Option String
  toDate : Option String
  limit : Option JsField
deriving DecidableEq

/-- Line 161: `const limitFromBody = typeof body.limit === 'number' ?
body.limit : undefined`. -/
def limitFromBody (v : Option JsField) : Option JSNum :=
  match v with
  | some (.num x) => some x
  | _ => none

/-- Line 162: `const pageSize = Math.min(Math.max(limitFromBody ?? 20, 1),
100)`. -/
def pageSize (v : Option JsField) : JSNum :=
  JSNum.jsMin (JSNum.jsMax ((limitFromBody v).getD (.fin 20)) (.fin 1)) (.fin 100)

/-- The falsy-to-undefined coercion `x || undefined` used on the optional
filters. -/
def orUndefined (v : Option String) : Option String :=
  match v with
  | some s => if s = "" then none else some s
  | none => none

/-- The `variables` object passed to the GraphQL query (lines 172-180). -/
structure Variables where
  businessId : String
  page : Nat
  pageSize : JSNum
  status : Option String
  customerSearch : Option String
  startDate : Option String
  endDate : Option String
deriving DecidableEq

/-- `pageInfo` of the upstream connection. -/
structure PageInfo where
  currentPage : Int
  totalPages : Int
  totalCount : Int
deriving DecidableEq

/-- The upstream invoice customer projection. -/
structure ListCustomer where
  id : String
  name : Option String
deriving DecidableEq

/-- A money object `{ amount, currency }` of the upstream list query. -/
structure ListMoney where
  amount : ℚ
  currency : Option CreateInvoice.CurrencyObj
deriving DecidableEq

/-- One upstream invoice node of the list query. -/
structure ListNode where
  id : String
  createdAt : String
  dueDate : Option String
  status : String
  invoiceNumber : Option String
  total : Option ListMoney
  amountDue : Option ListMoney
  customer : Option ListCustomer
deriving DecidableEq

/-- One edge of the upstream connection. -/
structure Edge where
  node : ListNode
deriving DecidableEq

/-- The upstream `invoices` connection. -/
structure InvoicesConn where
  pageInfo : PageInfo
  edges : List Edge
deriving DecidableEq

/-- The upstream `business` object. -/
structure BusinessObj where
  id : String
  invoices : Option InvoicesConn
deriving DecidableEq

/-- `ListInvoicesQueryResult`: the `data` object of the query response. -/
structure ListInvoicesQueryResult where
  business : Option BusinessObj
deriving DecidableEq

/-- One flattened invoice of the response (lines 195-205). -/
structure InvoiceListItem where
  id : String
  invoiceNumber : Option String
  status : String
  createdAt : String
  dueDate : Option String
  totalAmount : ℚ
  totalCurrency : String
  amountDue : ℚ
  customerName : Option String
deriving DecidableEq

/-- The 200 response body (lines 207-216). -/
structure SuccessBody where
  businessKey : Option JsField
  businessId : String
  pageInfo : PageInfo
  invoices : List InvoiceListItem
deriving DecidableEq

/-- The JSON bodies this route can reply with. -/
inductive ReplyBody where
  | errMsg (error : String) : ReplyBody
  | success (payload : SuccessBody) : ReplyBody
deriving DecidableEq

/-- The outcome of one request: the reply and the query variables passed
upstream when the call was made. -/
structure Outcome where
  reply : HttpReply ReplyBody
  sent : Option Variables
deriving DecidableEq

/-- `POST` of the list-invoices route variant with a `limit` field
(lines 131-223): method check, authentication, JSON parse, business-key
membership check (400), page-size clamping, business id resolution (500
on a missing environment entry), the upstream query and response
flattening. -/
def POST (env : Env) (req : ApiRequest RequestBody)
    (upstream : UpstreamHttpResponse ListInvoicesQueryResult) : Outcome :=
  if req.method ≠ "POST" then ⟨⟨405, .errMsg "Method Not Allowed"⟩, none⟩
  else if authFailed env req.internalSecret then ⟨⟨401, .errMsg "Unauthorized"⟩, none⟩
  else
    match req.body with
    | none => ⟨⟨400, .errMsg "Invalid JSON body"⟩, none⟩
    | some body =>
      if CreateInvoice.businessKeyInvalid body.businessKey then
        ⟨⟨400, .errMsg "Invalid or missing businessKey"⟩, none⟩
      else
        match parseBusinessKeyField body.businessKey with
        | none => ⟨⟨500, .errMsg "Failed to fetch invoices from Wave"⟩, none⟩
        | some key =>
          match getBusinessIdFromKey env key with
          | .error _ => ⟨⟨500, .errMsg "Failed to fetch invoices from Wave"⟩, none⟩
          | .ok businessId =>
            let vars : Variables :=
              ⟨businessId, 1, pageSize body.limit, body.status,
                orUndefined body.customerSearch, orUndefined body.fromDate,
                orUndefined body.toDate⟩
            match waveGraphQLFetch env upstream with
            | .error _ => ⟨⟨500, .errMsg "Failed to fetch invoices from Wave"⟩, some vars⟩
            | .ok data =>
              match data.business.bind BusinessObj.invoices with
              | none => ⟨⟨500, .errMsg "Failed to fetch invoices from Wave"⟩, some vars⟩
              | some invoicesData =>
                ⟨⟨200, .success ⟨body.businessKey, businessId, invoicesData.pageInfo,
                  invoicesData.edges.map (fun e =>
                    ⟨e.node.id, e.node.invoiceNumber, e.node.status, e.node.createdAt,
                      e.node.dueDate, (e.node.total.map ListMoney.amount).getD 0,
                      ((e.node.total.bind ListMoney.currency).map
                        CreateInvoice.CurrencyObj.code).getD "",
                      (e.node.amountDue.map ListMoney.amount).getD 0,
                      e.node.customer.bind ListCustomer.name⟩)⟩⟩, some vars⟩

end ListInvoices

namespace UpdateProduct

/-- `UpdateProductRequestBody`.  `name`, `description`, `isSold` and
`isBought` are kept at their TypeScript types: a runtime value of any
other type behaves exactly like an absent field in this handler (the
`typeof` tests treat them alike), so the collapse loses no behaviour. -/
structure RequestBody where
  businessKey : Option JsField
  productId : Option JsField
  name : Option String
  description : Option String
  unitPrice : Option JsField
  isSold : Option Bool
  isBought : Option Bool
deriving DecidableEq

/-- The check `!body.productId || typeof body.productId !== 'string' ||
body.productId.trim().length === 0` (line 94). -/
def productIdInvalid (v : Option JsField) : Bool :=
  match v with
  | some (.str s) => s == "" || jsTrim s == ""
  | _ => true

/-- The product summary returned by the upstream mutation. -/
structure ProductSummary where
  id : String
  name : String
  description : Option String
  isSold : Bool
  isBought : Bool
deriving DecidableEq

/-- The `productUpdate` mutation payload. -/
structure ProductUpdatePayload where
  didSucceed : Bool
  inputErrors : List CreateInvoice.InputErrorObj
  product : Option ProductSummary
deriving DecidableEq

/-- `ProductUpdateResult`: the `data` object of the mutation response
(`productUpdate` itself is nullable). -/
structure ProductUpdateResult where
  productUpdate : Option ProductUpdatePayload
deriving DecidableEq

/-- The constructed `input` record (lines 124-143): only the provided
updatable fields are included. -/
structure ProductUpdateInput where
  businessId : String
  id : String
  name : Option String
  description : Option String
  unitPrice : Option JSNum
  isSold : Option Bool
  isBought : Option Bool
deriving DecidableEq

/-- The JSON bodies this route can reply with; the upstream input errors
are embedded as full objects in this route. -/
inductive ReplyBody where
  | errMsg (error : String) : ReplyBody
  | errInputErrors (error : String) (inputErrors : List CreateInvoice.InputErrorObj) :
      ReplyBody
  | errDetails (error : String) (details : Option String) : ReplyBody
  | success (businessKey : Option JsField) (businessId : String)
      (product : ProductSummary) : ReplyBody
deriving DecidableEq

/-- The outcome of one request. -/
structure Outcome where
  reply : HttpReply ReplyBody
  sent : Option ProductUpdateInput
deriving DecidableEq

/-- `POST` of `src/app/api/wave/products/update/route.ts`. -/
def POST (env : Env) (req : ApiRequest RequestBody)
    (upstream : UpstreamHttpResponse ProductUpdateResult) : Outcome :=
  if req.method ≠ "POST" then ⟨⟨405, .errMsg "Method Not Allowed"⟩, none⟩
  else if authFailed env req.internalSecret then ⟨⟨401, .errMsg "Unauthorized"⟩, none⟩
  else
    match req.body with
    | none => ⟨⟨400, .errMsg "Invalid JSON body"⟩, none⟩
    | some body =>
      if CreateInvoice.businessKeyInvalid body.businessKey then
        ⟨⟨400, .errMsg "Invalid businessKey"⟩, none⟩
      else if productIdInvalid body.productId then
        ⟨⟨400, .errMsg "productId is required"⟩, none⟩
      else if !(body.name.isSome || body.description.isSome ||
          (match body.unitPrice with | some (.num _) => true | _ => false) ||
          body.isSold.isSome || body.isBought.isSome) then
        ⟨⟨400, .errMsg "At least one updatable field must be provided"⟩, none⟩
      else if (match body.unitPrice with
          | some (.num x) => !x.isFinite || x.jsLt (.fin 0)
          | _ => false) then
        ⟨⟨400, .errMsg "unitPrice must be a non-negative number"⟩, none⟩
      else
        match parseBusinessKeyField body.businessKey with
        | none => ⟨⟨400, .errMsg "Invalid businessKey"⟩, none⟩
        | some key =>
          match getBusinessIdFromKey env key with
          | .error _ => ⟨⟨400, .errMsg "Invalid businessKey"⟩, none⟩
          | .ok businessId =>
            let input : ProductUpdateInput :=
              ⟨businessId,
                (match body.productId with
                  | some (.str s) => jsTrim s
                  | _ => ""),
                body.name, body.description,
                (match body.unitPrice with
                  | some (.num x) => some x
                  | _ => none),
                body.isSold, body.isBought⟩
            match waveGraphQLFetch env upstream with
            | .error msg =>
              ⟨⟨500, .errDetails "Unexpected error in products endpoint" (some msg)⟩,
                some input⟩
            | .ok result =>
              match result.productUpdate with
              | none =>
                ⟨⟨500, .errInputErrors "Wave productUpdate failed" []⟩, some input⟩
              | some payload =>
                match payload.product with
                | none =>
                  ⟨⟨500, .errInputErrors "Wave productUpdate failed" payload.inputErrors⟩,
                    some input⟩
                | some product =>
                  if !payload.didSucceed || !payload.inputErrors.isEmpty then
                    ⟨⟨500, .errInputErrors "Wave productUpdate failed"
                      payload.inputErrors⟩, some input⟩
                  else
                    ⟨⟨200, .success body.businessKey businessId product⟩, some input⟩

end UpdateProduct

namespace Health

/-- The JSON bodies the health route can reply with. -/
inductive ReplyBody where
  | errMsg (error : String) : ReplyBody
  | metadata (ok : Bool) (service : String) (version : String) : ReplyBody
deriving DecidableEq

/-- `GET` of `src/app/api/health/route.ts`: 500 when the shared secret is
unconfigured, then the header comparison, then the static metadata. -/
def GET (env : Env) (secret : Option String) : HttpReply ReplyBody :=
  match env "INTERNAL_API_SECRET" with
  | none => ⟨500, .errMsg "Internal server error"⟩
  | some expected =>
    if expected = "" then ⟨500, .errMsg "Internal server error"⟩
    else
      match secret with
      | none => ⟨401, .errMsg "Unauthorized"⟩
      | some s =>
        if s = "" || s ≠ expected then ⟨401, .errMsg "Unauthorized"⟩
        else ⟨200, .metadata true "wave-billing-gpt-backend" "0.1.0"⟩

end Health

namespace MonthSummary

/-- One upstream invoice node of the monthly-summary query. -/
structure SummaryNode where
  id : String
  createdAt : String
  dueDate : Option String
  status : String
  invoiceNumber : Option String
  total : Option CreateInvoice.MoneyValue
  amountDue : Option CreateInvoice.MoneyValue
deriving DecidableEq

/-- One edge of the upstream connection. -/
structure Edge where
  node : SummaryNode
deriving DecidableEq

/-- `MonthlySummaryCounts` (route lines 197-204). -/
structure Counts where
  totalInvoices : Nat
  draftCount : Nat
  approvedCount : Nat
  sentCount : Nat
  paidCount : Nat
  overdueCount : Nat
deriving DecidableEq

/-- `MonthlySummaryTotals` (route lines 206-210). -/
structure Totals where
  totalInvoiced : ℚ
  totalPaid : ℚ
  totalOutstanding : ℚ
deriving DecidableEq

/-- `node.total?.value ?? 0` for one edge. -/
def nodeTotal (e : Edge) : ℚ := (e.node.total.map CreateInvoice.MoneyValue.value).getD 0

/-- `node.amountDue?.value ?? 0` for one edge. -/
def nodeDue (e : Edge) : ℚ := (e.node.amountDue.map CreateInvoice.MoneyValue.value).getD 0

/-- The status switch of the loop (route lines 227-245). -/
def statusCounts (counts : Counts) (status : String) : Counts :=
  match status with
  | "DRAFT" => { counts with draftCount := counts.draftCount + 1 }
  | "APPROVED" => { counts with approvedCount := counts.approvedCount + 1 }
  | "SENT" => { counts with sentCount := counts.sentCount + 1 }
  | "PAID" => { counts with paidCount := counts.paidCount + 1 }
  | "OVERDUE" => { counts with overdueCount := counts.overdueCount + 1 }
  | _ => counts

/-- The currency capture of the loop (route lines 223-225):
`if (!currency && node.total?.currency?.code) currency = code`. -/
def updateCurrency (currency : Option String) (node : SummaryNode) : Option String :=
  if currency.getD "" = "" then
    match (node.total.bind CreateInvoice.MoneyValue.currency).map
        CreateInvoice.CurrencyObj.code with
    | some code => if code = "" then currency else some code
    | none => currency
  else currency

/-- One iteration of `edges.forEach` (route lines 214-246). -/
def summaryStep (acc : Counts × Totals × Option String) (e : Edge) :
    Counts × Totals × Option String :=
  (statusCounts acc.1 e.node.status,
    ⟨acc.2.1.totalInvoiced + nodeTotal e,
      acc.2.1.totalPaid + (nodeTotal e - nodeDue e),
      acc.2.1.totalOutstanding + nodeDue e⟩,
    updateCurrency acc.2.2 e.node)

/-- The accumulation over all fetched edges (route lines 196-246):
`totalInvoices` is initialised to `edges.length`, every other counter and
total to zero, the currency to null. -/
def summarize (edges : List Edge) : Counts × Totals × Option String :=
  edges.foldl summaryStep (⟨edges.length, 0, 0, 0, 0, 0⟩, ⟨0, 0, 0⟩, none)

theorem statusCounts_totalInvoices (counts : Counts) (status : String) :
    (statusCounts counts status).totalInvoices = counts.totalInvoices := by
  unfold statusCounts
  split <;> rfl

theorem statusCounts_draft (counts : Counts) (status : String) :
    (statusCounts counts status).draftCount =
      counts.draftCount + (if status = "DRAFT" then 1 else 0) := by
  unfold statusCounts
  split <;> simp_all

theorem statusCounts_approved (counts : Counts) (status : String) :
    (statusCounts counts status).approvedCount =
      counts.approvedCount + (if status = "APPROVED" then 1 else 0) := by
  unfold statusCounts
  split <;> simp_all

theorem statusCounts_sent (counts : Counts) (status : String) :
    (statusCounts counts status).sentCount =
      counts.sentCount + (if status = "SENT" then 1 else 0) := by
  unfold statusCounts
  split <;> simp_all

theorem statusCounts_paid (counts : Counts) (status : String) :
    (statusCounts counts status).paidCount =
      counts.paidCount + (if status = "PAID" then 1 else 0) := by
  unfold statusCounts
  split <;> simp_all

theorem statusCounts_overdue (counts : Counts) (status : String) :
    (statusCounts counts status).overdueCount =
      counts.overdueCount + (if status = "OVERDUE" then 1 else 0) := by
  unfold statusCounts
  split <;> simp_all

/-- The single-pass accumulation decomposes, from any starting
accumulator, into independent sums and counts. -/
theorem summarize_fold (edges : List Edge) (counts : Counts) (totals : Totals)
    (currency : Option String) :
    (edges.foldl summaryStep (counts, totals, currency)).2.1.totalInvoiced =
        totals.totalInvoiced + (edges.map nodeTotal).sum ∧
    (edges.foldl summaryStep (counts, totals, currency)).2.1.totalPaid =
        totals.totalPaid + (edges.map (fun e => nodeTotal e - nodeDue e)).sum ∧
    (edges.foldl summaryStep (counts, totals, currency)).2.1.totalOutstanding =
        totals.totalOutstanding + (edges.map nodeDue).sum ∧
    (edges.foldl summaryStep (counts, totals, currency)).1.totalInvoices =
        counts.totalInvoices ∧
    (edges.foldl summaryStep (counts, totals, currency)).1.draftCount =
        counts.draftCount + edges.countP (fun e => e.node.status = "DRAFT") ∧
    (edges.foldl summaryStep (counts, totals, currency)).1.approvedCount =
        counts.approvedCount + edges.countP (fun e => e.node.status = "APPROVED") ∧
    (edges.foldl summaryStep (counts, totals, currency)).1.sentCount =
        counts.sentCount + edges.countP (fun e => e.node.status = "SENT") ∧
    (edges.foldl summaryStep (counts, totals, currency)).1.paidCount =
        counts.paidCount + edges.countP (fun e => e.node.status = "PAID") ∧
    (edges.foldl summaryStep (counts, totals, currency)).1.overdueCount =
        counts.overdueCount + edges.countP (fun e => e.node.status = "OVERDUE") := by
  induction edges generalizing counts totals currency with
  | nil => simp
  | cons e rest ih =>
    simp only [List.foldl_cons, List.map_cons, List.sum_cons, List.countP_cons]
    have := ih (statusCounts counts e.node.status)
      ⟨totals.totalInvoiced + nodeTotal e,
        totals.totalPaid + (nodeTotal e - nodeDue e),
        totals.totalOutstanding + nodeDue e⟩
      (updateCurrency currency e.node)
    simp only [summaryStep] at *
    refine ⟨?_, ?_, ?_, ?_, ?_, ?_, ?_, ?_, ?_⟩
    · rw [this.1]; ring
    · rw [this.2.1]; ring
    · rw [this.2.2.1]; ring
    · rw [this.2.2.2.1, statusCounts_totalInvoices]
    · rw [this.2.2.2.2.1, statusCounts_draft]
      simp only [decide_eq_true_eq]
      omega
    · rw [this.2.2.2.2.2.1, statusCounts_approved]
      simp only [decide_eq_true_eq]
      omega
    · rw [this.2.2.2.2.2.2.1, statusCounts_sent]
      simp only [decide_eq_true_eq]
      omega
    · rw [this.2.2.2.2.2.2.2.1, statusCounts_paid]
      simp only [decide_eq_true_eq]
      omega
    · rw [this.2.2.2.2.2.2.2.2, statusCounts_overdue]
      simp only [decide_eq_true_eq]
      omega

end MonthSummary

/-- C8: for every fetched invoice list, the computed `totalInvoiced` is
the sum of the invoice totals (0 when absent), `totalPaid` the sum of
total minus amount due, `totalOutstanding` the sum of amounts due, each
status counter counts exactly the invoices with the matching status, and
`totalInvoices` is the number of invoices. -/
theorem monthly_summary_totals (edges : List MonthSummary.Edge) :
    (MonthSummary.summarize edges).2.1.totalInvoiced =
        (edges.map MonthSummary.nodeTotal).sum ∧
    (MonthSummary.summarize edges).2.1.totalPaid =
        (edges.map (fun e => MonthSummary.nodeTotal e - MonthSummary.nodeDue e)).sum ∧
    (MonthSummary.summarize edges).2.1.totalOutstanding =
        (edges.map MonthSummary.nodeDue).sum ∧
    (MonthSummary.summarize edges).1.totalInvoices = edges.length ∧
    (MonthSummary.summarize edges).1.draftCount =
        edges.countP (fun e => e.node.status = "DRAFT") ∧
    (MonthSummary.summarize edges).1.approvedCount =
        edges.countP (fun e => e.node.status = "APPROVED") ∧
    (MonthSummary.summarize edges).1.sentCount =
        edges.countP (fun e => e.node.status = "SENT") ∧
    (MonthSummary.summarize edges).1.paidCount =
        edges.countP (fun e => e.node.status = "PAID") ∧
    (MonthSummary.summarize edges).1.overdueCount =
        edges.countP (fun e => e.node.status = "OVERDUE") := by
  have h := MonthSummary.summarize_fold edges ⟨edges.length, 0, 0, 0, 0, 0⟩ ⟨0, 0, 0⟩ none
  unfold MonthSummary.summarize
  refine ⟨?_, ?_, ?_, ?_, ?_, ?_, ?_, ?_, ?_⟩
  · rw [h.1]; ring
  · rw [h.2.1]; ring
  · rw [h.2.2.1]; ring
  · rw [h.2.2.2.1]
  · rw [h.2.2.2.2.1]; ring
  · rw [h.2.2.2.2.2.1]; ring
  · rw [h.2.2.2.2.2.2.1]; ring
  · rw [h.2.2.2.2.2.2.2.1]; ring
  · rw [h.2.2.2.2.2.2.2.2]; ring

/-- C3: with the shared secret configured, any request whose
`x-internal-secret` header is missing or differs from it gets a 401 from
the create-invoice handler, with no upstream call made (so no further
processing), whatever the body (malformed, invalid or valid); under the
same hypotheses the health route also replies 401 once its own
missing-configuration guard has passed (a non-empty configured secret). -/
theorem secret_mismatch_unauthorized (env : Env) (now : CivilDate)
    (req : ApiRequest CreateInvoice.RequestBody)
    (upstream : UpstreamHttpResponse CreateInvoice.InvoiceCreateResult)
    (s : String) (hcfg : env "INTERNAL_API_SECRET" = some s)
    (hm : req.method = "POST")
    (hbad : req.internalSecret = none ∨ ∃ t, req.internalSecret = some t ∧ t ≠ s) :
    (CreateInvoice.POST env now req upstream).reply = ⟨401, .errMsg "Unauthorized"⟩ ∧
    (CreateInvoice.POST env now req upstream).sent = none ∧
    (s ≠ "" → Health.GET env req.internalSecret = ⟨401, .errMsg "Unauthorized"⟩) := by
  have hauth : authFailed env req.internalSecret = true := by
    rcases hbad with h | ⟨t, ht, hne⟩
    · simp [authFailed, h]
    · have hneq : env "INTERNAL_API_SECRET" ≠ some t := by
        rw [hcfg]
        simpa using fun h => hne h.symm
      simp [authFailed, ht, hneq]
  have hpost : CreateInvoice.POST env now req upstream =
      ⟨⟨401, .errMsg "Unauthorized"⟩, none⟩ := by
    unfold CreateInvoice.POST
    rw [hm]
    rw [if_neg (by simp), if_pos hauth]
  refine ⟨by rw [hpost], by rw [hpost], ?_⟩
  intro hs
  unfold Health.GET
  simp only [hcfg]
  rw [if_neg hs]
  rcases hbad with h | ⟨t, ht, hne⟩
  · simp only [h]
  · simp only [ht]
    rw [if_pos (by simp [hne])]

/-- A fixed upstream response value for witnesses that never reach the
upstream call. -/
def anyUpstreamInvoice : UpstreamHttpResponse CreateInvoice.InvoiceCreateResult :=
  ⟨true, 200, "OK", "", ⟨none, none⟩⟩

/-- Witness for C3: with secret "sek" configured, a POST carrying header
"wrong" and a malformed JSON body is answered 401 with no upstream call,
and the health route answers 401 as well. -/
theorem secret_mismatch_unauthorized_witness :
    (CreateInvoice.POST (envOf [("INTERNAL_API_SECRET", "sek")]) ⟨2024, 5, 5⟩
      ⟨"POST", some "wrong", none⟩ anyUpstreamInvoice).reply =
        ⟨401, .errMsg "Unauthorized"⟩ ∧
    (CreateInvoice.POST (envOf [("INTERNAL_API_SECRET", "sek")]) ⟨2024, 5, 5⟩
      ⟨"POST", some "wrong", none⟩ anyUpstreamInvoice).sent = none ∧
    Health.GET (envOf [("INTERNAL_API_SECRET", "sek")]) (some "wrong") =
      ⟨401, .errMsg "Unauthorized"⟩ := by
  have h := secret_mismatch_unauthorized (envOf [("INTERNAL_API_SECRET", "sek")])
    ⟨2024, 5, 5⟩ ⟨"POST", some "wrong", none⟩ anyUpstreamInvoice "sek" rfl rfl
    (Or.inr ⟨"wrong", rfl, by decide⟩)
  exact ⟨h.1, h.2.1, h.2.2 (by decide)⟩

/-- An environment configured for the `manna` key except for the business
ID entry `WAVE_BUSINESS_ID_MANNA`. -/
def envNoBizId : Env :=
  envOf [("INTERNAL_API_SECRET", "sek"), ("WAVE_ACCESS_TOKEN", "tok"),
    ("WAVE_PRODUCT_ID_GENERIC_MANNA", "prod-1")]

/-- A fully valid create-invoice request for the `manna` business. -/
def reqValidManna : ApiRequest CreateInvoice.RequestBody :=
  ⟨"POST", some "sek",
    some ⟨some (.str "manna"), some (.str "c-1"), none, some "2024-01-10",
      some "2024-01-20", none, some [⟨none, some (.num (.fin 1)), some (.num (.fin 5))⟩]⟩⟩

/-- Counterexample to C4 as stated: with the valid businessKey `manna`
and every needed entry except `WAVE_BUSINESS_ID_MANNA` configured, the
create-invoice handler replies 400 "Invalid businessKey" — a 4xx, not
the claimed 500-class failure, even though the key itself is valid. -/
theorem missing_business_id_env_returns_400 :
    (CreateInvoice.POST envNoBizId ⟨2024, 5, 5⟩ reqValidManna anyUpstreamInvoice).reply =
      ⟨400, .errMsg "Invalid businessKey"⟩ := by decide

/-- C4 (amended): in the create-invoice route a failed business-ID
resolution for a valid key is reported as 400 "Invalid businessKey"
(indistinguishable from an invalid key), while a missing generic product
ID entry is reported as a 500 whose message names the business; the
list-invoices variant reports a failed business-ID resolution as a 500.
No silently-applied default exists in either case. -/
theorem config_failure_statuses :
    (∀ env now (req : ApiRequest CreateInvoice.RequestBody) upstream body key e,
      req.method = "POST" → authFailed env req.internalSecret = false →
      req.body = some body →
      CreateInvoice.validateRequestBody body = .ok () →
      parseBusinessKeyField body.businessKey = some key →
      getBusinessIdFromKey env key = .error e →
      (CreateInvoice.POST env now req upstream).reply =
        ⟨400, .errMsg "Invalid businessKey"⟩) ∧
    (∀ env now (req : ApiRequest CreateInvoice.RequestBody) upstream body key
        businessId msg,
      req.method = "POST" → authFailed env req.internalSecret = false →
      req.body = some body →
      CreateInvoice.validateRequestBody body = .ok () →
      parseBusinessKeyField body.businessKey = some key →
      getBusinessIdFromKey env key = .ok businessId →
      CreateInvoice.getGenericProductId env key = .error msg →
      (CreateInvoice.POST env now req upstream).reply = ⟨500, .errMsg msg⟩ ∧
        msg = "Missing generic product ID for business " ++ key.toKeyString) ∧
    (∀ env (req : ApiRequest ListInvoices.RequestBody) upstream body key e,
      req.method = "POST" → authFailed env req.internalSecret = false →
      req.body = some body →
      CreateInvoice.businessKeyInvalid body.businessKey = false →
      parseBusinessKeyField body.businessKey = some key →
      getBusinessIdFromKey env key = .error e →
      (ListInvoices.POST env req upstream).reply =
        ⟨500, .errMsg "Failed to fetch invoices from Wave"⟩) := by
  refine ⟨?_, ?_, ?_⟩
  · intro env now req upstream body key e hm hauth hbody hval hkey hbiz
    unfold CreateInvoice.POST
    rw [hm]
    rw [if_neg (by simp), if_neg (by simp [hauth])]
    simp only [hbody, hval, hkey, hbiz]
  · intro env now req upstream body key businessId msg hm hauth hbody hval hkey hbiz hprod
    have hmsg : msg = "Missing generic product ID for business " ++ key.toKeyString := by
      cases key <;>
        (simp only [CreateInvoice.getGenericProductId] at hprod
         split at hprod
         · split at hprod
           · cases hprod
             rfl
           · cases hprod
         · cases hprod
           rfl)
    refine ⟨?_, hmsg⟩
    unfold CreateInvoice.POST
    rw [hm]
    rw [if_neg (by simp), if_neg (by simp [hauth])]
    simp only [hbody, hval, hkey, hbiz, hprod]
  · intro env req upstream body key e hm hauth hbody hbk hkey hbiz
    unfold ListInvoices.POST
    rw [hm]
    rw [if_neg (by simp), if_neg (by simp [hauth])]
    simp only [hbody, hbk, Bool.false_eq_true, if_false, hkey, hbiz]

/-- Witness for C4 (amended): concrete runs exercising the 400-on-missing
business ID, the named 500 on a missing product ID, and the 500 of the
list route. -/
theorem config_failure_statuses_witness :
    (CreateInvoice.POST envNoBizId ⟨2024, 5, 5⟩ reqValidManna anyUpstreamInvoice).reply =
      ⟨400, .errMsg "Invalid businessKey"⟩ ∧
    (CreateInvoice.POST (envOf [("INTERNAL_API_SECRET", "sek"),
        ("WAVE_BUSINESS_ID_MANNA", "biz-1")]) ⟨2024, 5, 5⟩ reqValidManna
        anyUpstreamInvoice).reply =
      ⟨500, .errMsg "Missing generic product ID for business manna"⟩ ∧
    (ListInvoices.POST envNoBizId
        ⟨"POST", some "sek", some ⟨some (.str "manna"), none, none, none, none, none⟩⟩
        ⟨true, 200, "OK", "", ⟨none, none⟩⟩).reply =
      ⟨500, .errMsg "Failed to fetch invoices from Wave"⟩ := by
  refine ⟨?_, ?_, ?_⟩
  · exact config_failure_statuses.1 envNoBizId ⟨2024, 5, 5⟩ reqValidManna
      anyUpstreamInvoice _ .manna "WAVE_BUSINESS_ID_MANNA is not set"
      rfl (by decide) rfl (by decide) (by decide) (by decide)
  · exact ((config_failure_statuses.2.1 (envOf [("INTERNAL_API_SECRET", "sek"),
      ("WAVE_BUSINESS_ID_MANNA", "biz-1")]) ⟨2024, 5, 5⟩ reqValidManna
      anyUpstreamInvoice _ .manna "biz-1"
      "Missing generic product ID for business manna"
      rfl (by decide) rfl (by decide) (by decide) (by decide) (by decide))).1
  · exact config_failure_statuses.2.2 envNoBizId
      ⟨"POST", some "sek", some ⟨some (.str "manna"), none, none, none, none, none⟩⟩
      ⟨true, 200, "OK", "", ⟨none, none⟩⟩ _ .manna "WAVE_BUSINESS_ID_MANNA is not set"
      rfl (by decide) rfl (by decide) (by decide) (by decide)

/-- C9: when the upstream mutation payload reports failure (`didSucceed`
false or a non-empty `inputErrors` list), the create-invoice handler
replies 500 embedding every upstream error message in its `inputErrors`
field, and the product-update handler replies 500 embedding every
upstream error object in its `inputErrors` field. -/
theorem upstream_failure_surfaced :
    (∀ env now (req : ApiRequest CreateInvoice.RequestBody) upstream body key
        businessId productId invoiceDate dueDate data,
      req.method = "POST" → authFailed env req.internalSecret = false →
      req.body = some body →
      CreateInvoice.validateRequestBody body = .ok () →
      parseBusinessKeyField body.businessKey = some key →
      getBusinessIdFromKey env key = .ok businessId →
      CreateInvoice.getGenericProductId env key = .ok productId →
      computeDates now body.invoiceDate body.dueDate = (invoiceDate, some dueDate) →
      waveGraphQLFetch env upstream = .ok data →
      (data.invoiceCreate.didSucceed = false ∨ data.invoiceCreate.inputErrors ≠ []) →
      (CreateInvoice.POST env now req upstream).reply =
        ⟨500, .errInputErrors "Wave invoiceCreate failed"
          (data.invoiceCreate.inputErrors.map CreateInvoice.InputErrorObj.message)⟩) ∧
    (∀ env (req : ApiRequest UpdateProduct.RequestBody) upstream body key businessId
        payload,
      req.method = "POST" → authFailed env req.internalSecret = false →
      req.body = some body →
      CreateInvoice.businessKeyInvalid body.businessKey = false →
      UpdateProduct.productIdInvalid body.productId = false →
      (body.name.isSome || body.description.isSome ||
        (match body.unitPrice with | some (.num _) => true | _ => false) ||
        body.isSold.isSome || body.isBought.isSome) = true →
      (match body.unitPrice with
        | some (.num x) => !x.isFinite || x.jsLt (.fin 0)
        | _ => false) = false →
      parseBusinessKeyField body.businessKey = some key →
      getBusinessIdFromKey env key = .ok businessId →
      waveGraphQLFetch env upstream = .ok ⟨some payload⟩ →
      (payload.didSucceed = false ∨ payload.inputErrors ≠ []) →
      (UpdateProduct.POST env req upstream).reply =
        ⟨500, .errInputErrors "Wave productUpdate failed" payload.inputErrors⟩) := by
  constructor
  · intro env now req upstream body key businessId productId invoiceDate dueDate data
      hm hauth hbody hval hkey hbiz hprod hdates hfetch hfail
    have hcond : (!data.invoiceCreate.didSucceed ||
        !data.invoiceCreate.inputErrors.isEmpty) = true := by
      rcases hfail with hf | hf
      · simp [hf]
      · rcases hl : data.invoiceCreate.inputErrors with _ | ⟨a, t⟩
        · exact absurd hl hf
        · simp [hl]
    unfold CreateInvoice.POST
    rw [hm]
    rw [if_neg (by simp), if_neg (by simp [hauth])]
    simp only [hbody, hval, hkey, hbiz, hprod, hdates, hfetch]
    cases hinv : data.invoiceCreate.invoice with
    | none => simp [hinv]
    | some invoice =>
      simp only [hinv]
      rw [if_pos hcond]
  · intro env req upstream body key businessId payload
      hm hauth hbody hbk hpid hhas hup hkey hbiz hfetch hfail
    have hcond : (!payload.didSucceed || !payload.inputErrors.isEmpty) = true := by
      rcases hfail with hf | hf
      · simp [hf]
      · rcases hl : payload.inputErrors with _ | ⟨a, t⟩
        · exact absurd hl hf
        · simp [hl]
    unfold UpdateProduct.POST
    rw [hm]
    rw [if_neg (by simp), if_neg (by simp [hauth])]
    simp only [hbody, hbk, Bool.false_eq_true, if_false, hpid, hhas, hup,
      Bool.not_true, hkey, hbiz, hfetch]
    cases hpr : payload.product with
    | none => simp [hpr]
    | some product =>
      simp only [hpr]
      rw [if_pos hcond]

/-- Witness for C9: concrete runs of both handlers against an upstream
payload carrying `didSucceed: false` and one input error. -/
theorem upstream_failure_surfaced_witness :
    (CreateInvoice.POST
        (envOf [("INTERNAL_AP_UNUSED", "x"), ("INTERNAL_API_SECRET", "sek"),
          ("WAVE_ACCESS_TOKEN", "tok"), ("WAVE_BUSINESS_ID_MANNA", "biz-1"),
          ("WAVE_PRODUCT_ID_GENERIC_MANNA", "prod-1")])
        ⟨2024, 5, 5⟩ reqValidManna
        ⟨true, 200, "OK", "",
          ⟨some ⟨⟨false, [⟨"E1", "bad customer", []⟩], none⟩⟩, none⟩⟩).reply =
      ⟨500, .errInputErrors "Wave invoiceCreate failed" ["bad customer"]⟩ ∧
    (UpdateProduct.POST
        (envOf [("INTERNAL_API_SECRET", "sek"), ("WAVE_ACCESS_TOKEN", "tok"),
          ("WAVE_BUSINESS_ID_MANNA", "biz-1")])
        ⟨"POST", some "sek",
          some ⟨some (.str "manna"), some (.str "p-1"), some "New name", none, none,
            none, none⟩⟩
        ⟨true, 200, "OK", "",
          ⟨some ⟨some ⟨false, [⟨"E2", "no such product", []⟩], none⟩⟩, none⟩⟩).reply =
      ⟨500, .errInputErrors "Wave productUpdate failed"
        [⟨"E2", "no such product", []⟩]⟩ := by
  constructor
  · exact upstream_failure_surfaced.1
      (envOf [("INTERNAL_AP_UNUSED", "x"), ("INTERNAL_API_SECRET", "sek"),
        ("WAVE_ACCESS_TOKEN", "tok"), ("WAVE_BUSINESS_ID_MANNA", "biz-1"),
        ("WAVE_PRODUCT_ID_GENERIC_MANNA", "prod-1")])
      ⟨2024, 5, 5⟩ reqValidManna _ _ .manna "biz-1" "prod-1" "2024-01-10" "2024-01-20"
      ⟨⟨false, [⟨"E1", "bad customer", []⟩], none⟩⟩
      rfl (by decide) rfl (by decide) (by decide) (by decide) (by decide) (by decide)
      (by decide) (Or.inl rfl)
  · exact upstream_failure_surfaced.2
      (envOf [("INTERNAL_API_SECRET", "sek"), ("WAVE_ACCESS_TOKEN", "tok"),
        ("WAVE_BUSINESS_ID_MANNA", "biz-1")])
      ⟨"POST", some "sek",
        some ⟨some (.str "manna"), some (.str "p-1"), some "New name", none, none,
          none, none⟩⟩ _ _ .manna "biz-1"
      ⟨false, [⟨"E2", "no such product", []⟩], none⟩
      rfl (by decide) rfl (by decide) (by decide) (by decide) (by decide) (by decide)
      (by decide) (by decide) (Or.inl rfl)

/-- Clamping behaviour of `Math.min(Math.max(x, 1), 100)` on any non-NaN
JavaScript number. -/
theorem clamp_spec (x : JSNum) (hx : x ≠ .nan) :
    (JSNum.fin 1).jsLe (JSNum.jsMin (JSNum.jsMax x (.fin 1)) (.fin 100)) = true ∧
    (JSNum.jsMin (JSNum.jsMax x (.fin 1)) (.fin 100)).jsLe (.fin 100) = true ∧
    (∀ q : ℚ, x = .fin q → 1 ≤ q → q ≤ 100 →
      JSNum.jsMin (JSNum.jsMax x (.fin 1)) (.fin 100) = .fin q) ∧
    (∀ q : ℚ, x = .fin q → q < 1 →
      JSNum.jsMin (JSNum.jsMax x (.fin 1)) (.fin 100) = .fin 1) ∧
    (∀ q : ℚ, x = .fin q → 100 < q →
      JSNum.jsMin (JSNum.jsMax x (.fin 1)) (.fin 100) = .fin 100) ∧
    (x = .posInf → JSNum.jsMin (JSNum.jsMax x (.fin 1)) (.fin 100) = .fin 100) ∧
    (x = .negInf → JSNum.jsMin (JSNum.jsMax x (.fin 1)) (.fin 100) = .fin 1) := by
  cases x with
  | nan => exact absurd rfl hx
  | posInf =>
    refine ⟨by decide, by decide, ?_, ?_, ?_, ?_, ?_⟩
    · intro q h
      cases h
    · intro q h
      cases h
    · intro q h
      cases h
    · intro h
      decide
    · intro h
      cases h
  | negInf =>
    refine ⟨by decide, by decide, ?_, ?_, ?_, ?_, ?_⟩
    · intro q h
      cases h
    · intro q h
      cases h
    · intro q h
      cases h
    · intro h
      cases h
    · intro h
      decide
  | fin q =>
    refine ⟨?_, ?_, ?_, ?_, ?_, ?_, ?_⟩
    · by_cases h1 : q ≤ 1 <;> by_cases h2 : q ≤ 100 <;>
        norm_num [JSNum.jsMax, JSNum.jsMin, JSNum.isNaN, JSNum.jsLe, h1, h2] <;>
        linarith
    · by_cases h1 : q ≤ 1 <;> by_cases h2 : q ≤ 100 <;>
        norm_num [JSNum.jsMax, JSNum.jsMin, JSNum.isNaN, JSNum.jsLe, h1, h2] <;>
        linarith
    · intro q' hq' hq1 hq2
      injection hq' with h
      subst h
      by_cases h1 : q ≤ 1
      · have hq1e : q = 1 := le_antisymm h1 hq1
        subst hq1e
        decide
      · norm_num [JSNum.jsMax, JSNum.jsMin, JSNum.isNaN, JSNum.jsLe, h1, hq2]
    · intro q' hq' hlt
      injection hq' with h
      subst h
      have h1 : q ≤ 1 := le_of_lt hlt
      norm_num [JSNum.jsMax, JSNum.jsMin, JSNum.isNaN, JSNum.jsLe, h1]
    · intro q' hq' hgt
      injection hq' with h
      subst h
      have h1 : ¬ q ≤ 1 := by linarith
      have h2 : ¬ q ≤ 100 := by linarith
      norm_num [JSNum.jsMax, JSNum.jsMin, JSNum.isNaN, JSNum.jsLe, h1, h2]
    · intro h
      cases h
    · intro h
      cases h

/-- C10: for every list-invoices request that passes key validation and
resolution, the handler sends query variables with page 1 and a page size
that is the clamp of the request's `limit` into the interval from 1 to
100: the limit itself when a number in range, the nearer bound when a
number out of range (infinite limits included), and 20 when the limit is
absent or not a number.  (A NaN limit is excluded by hypothesis: a parsed
JSON body cannot contain NaN.) -/
theorem listInvoices_pageSize_clamped (env : Env)
    (req : ApiRequest ListInvoices.RequestBody)
    (upstream : UpstreamHttpResponse ListInvoices.ListInvoicesQueryResult)
    (body : ListInvoices.RequestBody) (key : BusinessKey) (businessId : String)
    (hm : req.method = "POST") (hauth : authFailed env req.internalSecret = false)
    (hbody : req.body = some body)
    (hbk : CreateInvoice.businessKeyInvalid body.businessKey = false)
    (hkey : parseBusinessKeyField body.businessKey = some key)
    (hbiz : getBusinessIdFromKey env key = .ok businessId)
    (hnan : body.limit ≠ some (.num .nan)) :
    ∃ vars, (ListInvoices.POST env req upstream).sent = some vars ∧
      vars.page = 1 ∧ vars.pageSize = ListInvoices.pageSize body.limit ∧
      (JSNum.fin 1).jsLe vars.pageSize = true ∧
      vars.pageSize.jsLe (.fin 100) = true ∧
      (∀ q : ℚ, body.limit = some (.num (.fin q)) → 1 ≤ q → q ≤ 100 →
        vars.pageSize = .fin q) ∧
      (∀ q : ℚ, body.limit = some (.num (.fin q)) → q < 1 → vars.pageSize = .fin 1) ∧
      (∀ q : ℚ, body.limit = some (.num (.fin q)) → 100 < q →
        vars.pageSize = .fin 100) ∧
      (body.limit = some (.num .posInf) → vars.pageSize = .fin 100) ∧
      (body.limit = some (.num .negInf) → vars.pageSize = .fin 1) ∧
      (ListInvoices.limitFromBody body.limit = none → vars.pageSize = .fin 20) := by
  have hx : (ListInvoices.limitFromBody body.limit).getD (.fin 20) ≠ JSNum.nan := by
    cases hv : body.limit with
    | none => simp [ListInvoices.limitFromBody]
    | some f =>
      cases f with
      | num x =>
        cases x <;> simp_all [ListInvoices.limitFromBody]
      | null => simp [ListInvoices.limitFromBody]
      | bool b => simp [ListInvoices.limitFromBody]
      | str s => simp [ListInvoices.limitFromBody]
      | composite => simp [ListInvoices.limitFromBody]
  have hc := clamp_spec _ hx
  have hsent : (ListInvoices.POST env req upstream).sent =
      some ⟨businessId, 1, ListInvoices.pageSize body.limit, body.status,
        ListInvoices.orUndefined body.customerSearch,
        ListInvoices.orUndefined body.fromDate,
        ListInvoices.orUndefined body.toDate⟩ := by
    unfold ListInvoices.POST
    rw [hm]
    rw [if_neg (by simp), if_neg (by simp [hauth])]
    simp only [hbody, hbk, Bool.false_eq_true, if_false, hkey, hbiz]
    cases hfetch : waveGraphQLFetch env upstream with
    | error e => simp [hfetch]
    | ok data =>
      simp only [hfetch]
      cases hb : data.business.bind ListInvoices.BusinessObj.invoices with
      | none => simp [hb]
      | some conn => simp [hb]
  refine ⟨_, hsent, rfl, rfl, ?_, ?_, ?_, ?_, ?_, ?_, ?_, ?_⟩
  · exact hc.1
  · exact hc.2.1
  · intro q hq h1 h2
    exact hc.2.2.1 q (by simp [ListInvoices.limitFromBody, hq]) h1 h2
  · intro q hq h1
    exact hc.2.2.2.1 q (by simp [ListInvoices.limitFromBody, hq]) h1
  · intro q hq h1
    exact hc.2.2.2.2.1 q (by simp [ListInvoices.limitFromBody, hq]) h1
  · intro hq
    exact hc.2.2.2.2.2.1 (by simp [ListInvoices.limitFromBody, hq])
  · intro hq
    exact hc.2.2.2.2.2.2 (by simp [ListInvoices.limitFromBody, hq])
  · intro hq
    show ListInvoices.pageSize body.limit = .fin 20
    unfold ListInvoices.pageSize
    rw [hq]
    decide

/-- Witness for C10: a concrete limit of 250 is clamped to a page size of
100 with page 1. -/
theorem listInvoices_pageSize_clamped_witness :
    ∃ vars,
      (ListInvoices.POST
          (envOf [("INTERNAL_API_SECRET", "sek"), ("WAVE_BUSINESS_ID_BAKO", "biz-2")])
          ⟨"POST", some "sek",
            some ⟨some (.str "bako"), none, none, none, none,
              some (.num (.fin 250))⟩⟩
          ⟨true, 200, "OK", "", ⟨none, none⟩⟩).sent = some vars ∧
      vars.page = 1 ∧ vars.pageSize = .fin 100 := by
  obtain ⟨vars, hsent, hpage, hps, _, _, _, _, hhigh, _, _, _⟩ :=
    listInvoices_pageSize_clamped
      (envOf [("INTERNAL_API_SECRET", "sek"), ("WAVE_BUSINESS_ID_BAKO", "biz-2")])
      ⟨"POST", some "sek",
        some ⟨some (.str "bako"), none, none, none, none, some (.num (.fin 250))⟩⟩
      ⟨true, 200, "OK", "", ⟨none, none⟩⟩
      ⟨some (.str "bako"), none, none, none, none, some (.num (.fin 250))⟩
      .bako "biz-2" rfl (by decide) rfl (by decide) (by decide) (by decide) (by decide)
  exact ⟨vars, hsent, hpage, hhigh 250 rfl (by norm_num)⟩
